import Mathlib

/-! # Coach RTOS: shared state, task registry and cabin event handlers

A shallow embedding of `include/common.h`, `src/scheduler.c`, `src/tasks.c`
and `src/main.c` (`system_init`, `usb_listener_thread`) of the coach subsystem
simulation.

Conventions of the embedding.

* The global `g_system` becomes an explicit `SystemState` value that every
  function receives and returns.
* The C arrays `cabins[NUM_CABINS]` and `tasks[MAX_TASKS]` are functions out
  of `Fin NUM_CABINS` and `Fin MAX_TASKS`: they always have exactly that many
  cells.  A C `int` used as a subscript is converted with `cabin_index` /
  `task_index`; a subscript outside the array is undefined behaviour in C and
  makes the embedded function return `none`.
* C `int` values (`priority`, `temperature`, `cabin_id`, `task_id`, ...) are
  `Int`: the code only stores and compares them, it never does arithmetic on
  them.  `num_tasks` is a `Nat`: the only writers are `system_init` and
  `scheduler_init` (store 0) and `scheduler_add_task` (increment below
  `MAX_TASKS`).  `execution_count` (`uint64_t`) is a `Nat`; the wrap at `2^64`
  is out of reach of a counter that is incremented once per task iteration.
* Mutexes, the condition variable, `log_message` and the display calls have no
  effect on `SystemState` and are left out: each function is embedded as the
  sequential effect of one call.  `clock_gettime` is the extra argument `now`.
  The one exception is the shutdown section, where the global mutex, the
  condition variable and `pthread_join` are part of a two-thread step relation.
-/

namespace CoachRtos

/-! ## Data model (`include/common.h`) -/

/-- Number of cabins, `#define NUM_CABINS 10`. -/
abbrev NUM_CABINS : Nat := 10

/-- Capacity of the task table, `#define MAX_TASKS 8`. -/
abbrev MAX_TASKS : Nat := 8

/-- Cabin states, `enum CabinState`. -/
inductive CabinState where
  | STATE_NORMAL
  | STATE_LIGHT_ON
  | STATE_TEMP_ADJUST
  | STATE_EMERGENCY
  | STATE_FIRE
  deriving DecidableEq, Repr

/-- Task states, `enum TaskState`. -/
inductive TaskState where
  | TASK_READY
  | TASK_RUNNING
  | TASK_BLOCKED
  | TASK_SUSPENDED
  deriving DecidableEq, Repr

/-- One cabin, `struct Cabin` without its mutex. -/
structure Cabin where
  id : Int
  light_on : Bool
  temperature : Int
  state : CabinState
  deriving DecidableEq, Repr

/-- One task descriptor, `struct Task`.  The function pointer and the thread
handle are natural numbers (a thread handle of 0 is "no thread"); the
timestamp is a clock reading. -/
structure Task where
  id : Int
  name : String
  priority : Int
  state : TaskState
  task_function : Nat
  thread : Nat
  is_active : Bool
  execution_count : Nat
  last_execution : Nat
  deriving DecidableEq, Repr

/-- The global record, `struct SystemState` without its mutex and condition
variable. -/
structure SystemState where
  cabins : Fin NUM_CABINS → Cabin
  tasks : Fin MAX_TASKS → Task
  num_tasks : Nat
  system_running : Bool
  power_low : Bool
  emergency_active : Bool
  fire_active : Bool

/-- Subscript into `cabins[NUM_CABINS]` from a C `int`; `none` when the
subscript is outside the array. -/
def cabin_index (cabin_id : Int) : Option (Fin NUM_CABINS) :=
  if h : 0 ≤ cabin_id ∧ cabin_id < 10 then
    some ⟨cabin_id.toNat, by show cabin_id.toNat < 10; omega⟩
  else none

/-- Subscript into `tasks[MAX_TASKS]` from a C `int`; `none` when the
subscript is outside the array. -/
def task_index (task_id : Int) : Option (Fin MAX_TASKS) :=
  if h : 0 ≤ task_id ∧ task_id < 8 then
    some ⟨task_id.toNat, by show task_id.toNat < 8; omega⟩
  else none

/-- The effect of `strncpy(task->name, name, sizeof(task->name) - 1)` on the
50 byte `name` field of a zero-initialised table: the first 49 characters. -/
def copy_name (name : String) : String :=
  String.mk (name.data.take 49)

/-! ## Task registry (`src/scheduler.c`) -/

/-- Embedding of `scheduler_init`: the task count is reset to 0. -/
def scheduler_init (s : SystemState) : SystemState :=
  { s with num_tasks := 0 }

/-- Embedding of `scheduler_add_task`: the pair of the returned `int` and the
new global state. -/
def scheduler_add_task (s : SystemState) (name : String) (priority : Int)
    (task_func : Nat) (now : Nat) : Int × SystemState :=
  if h : s.num_tasks ≥ MAX_TASKS then
    (-1, s)
  else
    let task_id : Fin MAX_TASKS :=
      ⟨s.num_tasks, by have h8 : ¬ s.num_tasks ≥ 8 := h; show s.num_tasks < 8; omega⟩
    let task : Task :=
      { s.tasks task_id with
        id := (s.num_tasks : Int)
        name := copy_name name
        priority := priority
        state := TaskState.TASK_READY
        task_function := task_func
        is_active := true
        execution_count := 0
        last_execution := now }
    ((s.num_tasks : Int),
      { s with tasks := Function.update s.tasks task_id task
               num_tasks := s.num_tasks + 1 })

/-- Loop state of `scheduler_get_highest_priority_task`: the locals `highest`
(a pointer into the table, or NULL) and `max_priority`. -/
structure ScanState where
  highest : Option (Fin MAX_TASKS)
  max_priority : Int
  deriving DecidableEq, Repr

/-- One iteration of the selection loop, for subscript `i`. -/
def scan_step (s : SystemState) (acc : ScanState) (i : Nat) : Option ScanState :=
  if h : i < MAX_TASKS then
    let task := s.tasks ⟨i, h⟩
    if task.is_active = true ∧ task.state = TaskState.TASK_READY then
      if task.priority > acc.max_priority then
        some { highest := some ⟨i, h⟩, max_priority := task.priority }
      else some acc
    else some acc
  else none

/-- The loop state after the iterations `i = 0, ..., k - 1` of
`for (int i = 0; i < g_system.num_tasks; i++)`; the locals start as
`highest = NULL`, `max_priority = -1`. -/
def scan (s : SystemState) : Nat → Option ScanState
  | 0 => some { highest := none, max_priority := -1 }
  | k + 1 => (scan s k).bind (fun acc => scan_step s acc k)

/-- Embedding of `scheduler_get_highest_priority_task`: `some none` is a NULL
result, `some (some t)` a pointer to `tasks[t]`. -/
def scheduler_get_highest_priority_task (s : SystemState) :
    Option (Option (Fin MAX_TASKS)) :=
  (scan s s.num_tasks).map ScanState.highest

/-- Embedding of `scheduler_task_complete`. -/
def scheduler_task_complete (s : SystemState) (task_id : Int) (now : Nat) :
    Option SystemState :=
  if 0 ≤ task_id ∧ task_id < (s.num_tasks : Int) then
    match task_index task_id with
    | some i =>
      let task := s.tasks i
      some { s with tasks := Function.update s.tasks i
                      { task with execution_count := task.execution_count + 1
                                  last_execution := now } }
    | none => none
  else some s

/-! ## Initial state (`src/main.c`) -/

/-- Embedding of `system_init`, applied to the (zero-initialised) global:
every cabin gets its index, light off, 24 degrees and `STATE_NORMAL`; the
task count and the flags are reset, `system_running` is set. -/
def system_init (s : SystemState) : SystemState :=
  { s with
    cabins := fun i =>
      { id := (i.val : Int), light_on := false, temperature := 24,
        state := CabinState.STATE_NORMAL }
    num_tasks := 0
    system_running := true
    power_low := false
    emergency_active := false
    fire_active := false }

/-! ## Event handlers (`src/tasks.c`) -/

/-- Embedding of `handle_fire_alert`. -/
def handle_fire_alert (s : SystemState) (cabin_id : Int) : Option SystemState :=
  match cabin_index cabin_id with
  | none => none
  | some i =>
    some { s with
      fire_active := true
      cabins := Function.update s.cabins i
        { s.cabins i with state := CabinState.STATE_FIRE, light_on := false } }

/-- Embedding of `handle_emergency`. -/
def handle_emergency (s : SystemState) (cabin_id : Int) : Option SystemState :=
  match cabin_index cabin_id with
  | none => none
  | some i =>
    some { s with
      emergency_active := true
      cabins := Function.update s.cabins i
        { s.cabins i with state := CabinState.STATE_EMERGENCY } }

/-- Embedding of `handle_chain_pull`. -/
def handle_chain_pull (s : SystemState) : SystemState :=
  { s with emergency_active := true }

/-- Body of the loop of `handle_power_low` for cabin `i`: the light goes off
when the cabin is in `STATE_NORMAL` or `STATE_LIGHT_ON`. -/
def power_low_step (cabins : Fin NUM_CABINS → Cabin) (i : Fin NUM_CABINS) :
    Fin NUM_CABINS → Cabin :=
  if (cabins i).state = CabinState.STATE_NORMAL ∨
      (cabins i).state = CabinState.STATE_LIGHT_ON then
    Function.update cabins i { cabins i with light_on := false }
  else cabins

/-- Embedding of `handle_power_low`: the flag is set, then the loop
`for (int i = 0; i < NUM_CABINS; i++)` runs over all cabins in order. -/
def handle_power_low (s : SystemState) : SystemState :=
  { s with
    power_low := true
    cabins := (List.finRange NUM_CABINS).foldl power_low_step s.cabins }

/-- Embedding of `adjust_temperature`. -/
def adjust_temperature (s : SystemState) (cabin_id : Int) (target_temp : Int) :
    Option SystemState :=
  match cabin_index cabin_id with
  | none => none
  | some i =>
    let c : Cabin := { s.cabins i with temperature := target_temp }
    let c : Cabin :=
      if c.state = CabinState.STATE_NORMAL then
        { c with state := CabinState.STATE_TEMP_ADJUST }
      else c
    some { s with cabins := Function.update s.cabins i c }

/-- Embedding of `control_light`; the C parameter `on` is `is_on` here. -/
def control_light (s : SystemState) (cabin_id : Int) (is_on : Bool) :
    Option SystemState :=
  match cabin_index cabin_id with
  | none => none
  | some i =>
    let c : Cabin := { s.cabins i with light_on := is_on }
    let c : Cabin :=
      if is_on = true ∧ c.state = CabinState.STATE_NORMAL then
        { c with state := CabinState.STATE_LIGHT_ON }
      else if is_on = false ∧ c.state = CabinState.STATE_LIGHT_ON then
        { c with state := CabinState.STATE_NORMAL }
      else c
    some { s with cabins := Function.update s.cabins i c }

/-- A call of one of the six event handlers of `tasks.c` with its arguments. -/
inductive HandlerCall where
  | fire_alert (cabin_id : Int)
  | emergency (cabin_id : Int)
  | chain_pull
  | power_low
  | adjust_temp (cabin_id : Int) (target_temp : Int)
  | light (cabin_id : Int) (is_on : Bool)
  deriving DecidableEq, Repr

/-- Effect of a handler call on the global state. -/
def HandlerCall.run (s : SystemState) : HandlerCall → Option SystemState
  | HandlerCall.fire_alert c => handle_fire_alert s c
  | HandlerCall.emergency c => handle_emergency s c
  | HandlerCall.chain_pull => some (handle_chain_pull s)
  | HandlerCall.power_low => some (handle_power_low s)
  | HandlerCall.adjust_temp c t => adjust_temperature s c t
  | HandlerCall.light c b => control_light s c b

/-- The cabin argument of a handler call, when it has one, is a valid
subscript of `cabins[NUM_CABINS]`. -/
def HandlerCall.in_range : HandlerCall → Prop
  | HandlerCall.fire_alert c => 0 ≤ c ∧ c < 10
  | HandlerCall.emergency c => 0 ≤ c ∧ c < 10
  | HandlerCall.chain_pull => True
  | HandlerCall.power_low => True
  | HandlerCall.adjust_temp c _ => 0 ≤ c ∧ c < 10
  | HandlerCall.light c _ => 0 ≤ c ∧ c < 10

/-! ## Sample states used to evaluate the definitions -/

/-- A task descriptor as the zero-initialised global holds it. -/
def zero_task : Task :=
  { id := 0, name := "", priority := 0, state := TaskState.TASK_READY,
    task_function := 0, thread := 0, is_active := false, execution_count := 0,
    last_execution := 0 }

/-- The zero-initialised global `g_system` before `system_init`. -/
def zero_state : SystemState :=
  { cabins := fun _ =>
      { id := 0, light_on := false, temperature := 0,
        state := CabinState.STATE_NORMAL }
    tasks := fun _ => zero_task
    num_tasks := 0
    system_running := false
    power_low := false
    emergency_active := false
    fire_active := false }

/-- The state after `system_init` and `scheduler_init`. -/
def init_state : SystemState :=
  scheduler_init (system_init zero_state)

/-- The task table after `register_all_tasks`: the eight tasks of the system
with the priorities of `common.h`, registered at clock reading 0. -/
def registered_state : SystemState :=
  let s := init_state
  let s := (scheduler_add_task s "Fire Emergency" 10 1 0).2
  let s := (scheduler_add_task s "Passenger Emergency" 9 2 0).2
  let s := (scheduler_add_task s "Chain Pull" 8 3 0).2
  let s := (scheduler_add_task s "Power Management" 7 4 0).2
  let s := (scheduler_add_task s "Temperature Regulation" 4 5 0).2
  let s := (scheduler_add_task s "Lighting Control" 3 6 0).2
  let s := (scheduler_add_task s "Display Update" 2 7 0).2
  (scheduler_add_task s "System Logging" 1 8 0).2


/-- Two tasks of equal priority 5, registered one after the other. -/
def two_tasks_state : SystemState :=
  let s := init_state
  let s := (scheduler_add_task s "First" 5 1 0).2
  (scheduler_add_task s "Second" 5 2 0).2

/-- A single registered task, of priority -1. -/
def negative_priority_state : SystemState :=
  (scheduler_add_task init_state "Background" (-1) 1 0).2

/-- A state with cabins in every state: after `system_init`, a fire alert in
cabin 3, an emergency in cabin 4, a temperature request in cabin 2 and the
light switched on in cabin 1. -/
def mixed_cabins_state : SystemState :=
  ((handle_fire_alert init_state 3).bind fun s =>
    (handle_emergency s 4).bind fun s =>
      (adjust_temperature s 2 18).bind fun s =>
        control_light s 1 true).getD init_state

/-! ## Predicates used in the statements -/

/-- Task `i` passes the test `task->is_active && task->state == TASK_READY`. -/
def task_ready (s : SystemState) (i : Fin MAX_TASKS) : Prop :=
  (s.tasks i).is_active = true ∧ (s.tasks i).state = TaskState.TASK_READY

instance (s : SystemState) (i : Fin MAX_TASKS) : Decidable (task_ready s i) := by
  unfold task_ready
  infer_instance

/-- Task `i` is one of the `num_tasks` registered entries of the table. -/
def task_registered (s : SystemState) (i : Fin MAX_TASKS) : Prop :=
  i.val < s.num_tasks

instance (s : SystemState) (i : Fin MAX_TASKS) : Decidable (task_registered s i) := by
  unfold task_registered
  infer_instance

/-- The cabin is in one of the two alarm states, Emergency or Fire. -/
def cabin_alarmed (c : Cabin) : Prop :=
  c.state = CabinState.STATE_EMERGENCY ∨ c.state = CabinState.STATE_FIRE

instance (c : Cabin) : Decidable (cabin_alarmed c) := by
  unfold cabin_alarmed
  infer_instance

/-- What the locals of the selection loop satisfy after the iterations
`0 .. k-1`. -/
def scan_inv (s : SystemState) (k : Nat) (acc : ScanState) : Prop :=
  -1 ≤ acc.max_priority ∧
  (∀ j : Fin MAX_TASKS, j.val < k → task_ready s j →
    (s.tasks j).priority ≤ acc.max_priority) ∧
  (acc.highest = none → acc.max_priority = -1) ∧
  (∀ t : Fin MAX_TASKS, acc.highest = some t →
    t.val < k ∧ task_ready s t ∧ (s.tasks t).priority = acc.max_priority ∧
    -1 < acc.max_priority ∧
    ∀ j : Fin MAX_TASKS, j.val < t.val → task_ready s j →
      (s.tasks j).priority < acc.max_priority)

/-! ## Sequences of handler calls -/

/-- The handler calls of a list, made one after the other; `none` as soon as
one call has no result. -/
def run_calls : SystemState → List HandlerCall → Option SystemState
  | s, [] => some s
  | s, call :: rest => (call.run s).bind (fun s1 => run_calls s1 rest)

/-- A cabin in state Fire comes with `fire_active`, a cabin in state
Emergency with `emergency_active`. -/
def alarm_flags_inv (s : SystemState) : Prop :=
  (∀ i : Fin NUM_CABINS, (s.cabins i).state = CabinState.STATE_FIRE →
    s.fire_active = true) ∧
  (∀ i : Fin NUM_CABINS, (s.cabins i).state = CabinState.STATE_EMERGENCY →
    s.emergency_active = true)

/-- Every cabin in state Normal has its light off. -/
def normal_dark_inv (s : SystemState) : Prop :=
  ∀ i : Fin NUM_CABINS, (s.cabins i).state = CabinState.STATE_NORMAL →
    (s.cabins i).light_on = false


instance (call : HandlerCall) : Decidable call.in_range := by
  cases call <;> unfold HandlerCall.in_range <;> infer_instance

/-- A sample sequence of handler calls that uses all six handlers. -/
def sample_calls : List HandlerCall :=
  [HandlerCall.fire_alert 3, HandlerCall.light 3 true, HandlerCall.light 1 true,
   HandlerCall.power_low, HandlerCall.emergency 4, HandlerCall.adjust_temp 2 18,
   HandlerCall.light 1 false, HandlerCall.chain_pull]


/-! ## Command listener (`usb_listener_thread` in `src/main.c`)

The C library calls are embedded from their ISO C descriptions: `isspace` in
the C locale, the conversion `%s` of `sscanf` (skip white space, then take the
longest run of characters that are not white space) and `atoi` (optional
sign, then decimal digits; 0 when there is no digit; undefined, here `none`,
when the value does not fit an `int`). -/

/-- White space of the C locale: space, and the codes 9 to 13
(tab, newline, vertical tab, form feed, carriage return). -/
def isspace (c : Char) : Bool :=
  c.toNat = 32 || (9 ≤ c.toNat && c.toNat ≤ 13)

/-- Splits a buffer into its runs of characters that are not white space;
`cur` holds the characters of the current run in reverse. -/
def tokens_from : List Char → List Char → List (List Char)
  | [], cur => if cur.isEmpty then [] else [cur.reverse]
  | c :: cs, cur =>
    if isspace c then
      if cur.isEmpty then tokens_from cs [] else cur.reverse :: tokens_from cs []
    else tokens_from cs (c :: cur)

/-- The strings that `sscanf(buffer, "%s %s %s", cmd, param1, param2)`
assigns: the first three white space separated tokens, or fewer. -/
def sscanf_tokens (buffer : List Char) : List (List Char) :=
  (tokens_from buffer []).take 3

/-- The value of the leading decimal digits of a string, continuing from
`acc`. -/
def atoi_digits : List Char → Nat → Nat
  | [], acc => acc
  | c :: cs, acc =>
    if 48 ≤ c.toNat ∧ c.toNat ≤ 57 then atoi_digits cs (10 * acc + (c.toNat - 48))
    else acc

/-- The C function `atoi`: white space is skipped, an optional `+` (code 43)
or `-` (code 45) is read, then the decimal digits; `none` when the value is
not an `int` of 32 bits. -/
def atoi (str : List Char) : Option Int :=
  let body := str.dropWhile isspace
  let value : Int :=
    match body with
    | [] => 0
    | c :: cs =>
      if c.toNat = 45 then -((atoi_digits cs 0 : Nat) : Int)
      else if c.toNat = 43 then ((atoi_digits cs 0 : Nat) : Int)
      else ((atoi_digits body 0 : Nat) : Int)
  if -2147483648 ≤ value ∧ value ≤ 2147483647 then some value else none

/-- The chain of `strcmp` tests of `usb_listener_thread`, entered when
`sscanf` has assigned `n >= 2` strings. -/
def usb_dispatch (s : SystemState) (cmd param1 param2 : List Char) (n : Nat) :
    Option SystemState :=
  if cmd = "LIGHT".data then
    match atoi param1 with
    | none => none
    | some cabin_id =>
      if cabin_id ≥ 0 ∧ cabin_id < 10 then
        control_light s cabin_id (decide (n ≥ 3 ∧ param2 = "ON".data))
      else some s
  else if cmd = "TEMP".data then
    match atoi param1, atoi param2 with
    | some cabin_id, some temp =>
      if cabin_id ≥ 0 ∧ cabin_id < 10 then adjust_temperature s cabin_id temp
      else some s
    | _, _ => none
  else if cmd = "EMERGENCY".data then
    match atoi param1 with
    | none => none
    | some cabin_id =>
      if cabin_id ≥ 0 ∧ cabin_id < 10 then handle_emergency s cabin_id else some s
  else if cmd = "FIRE".data then
    match atoi param1 with
    | none => none
    | some cabin_id =>
      if cabin_id ≥ 0 ∧ cabin_id < 10 then handle_fire_alert s cabin_id else some s
  else if cmd = "POWER".data then
    if param1 = "LOW".data then some (handle_power_low s) else some s
  else if cmd = "CHAIN".data then some (handle_chain_pull s)
  else if cmd = "STATUS".data then some s
  else some s

/-- One pass of the loop of `usb_listener_thread` for a line that `fgets` has
read into `buffer`: the newline is cut off, an empty buffer is skipped, the
tokens are scanned and, when there are at least two, dispatched.  A token of
32 characters or more overruns `cmd`, `param1` or `param2` (32 bytes each), so
there is no result.  When `sscanf` assigns two strings only, `param2` keeps
the indeterminate content `param2_init` it had before the call. -/
def usb_listener_thread_step (s : SystemState) (line : String) (param2_init : String) :
    Option SystemState :=
  let buffer := line.data.takeWhile (fun c => c.toNat ≠ 10)
  if buffer.length = 0 then some s
  else
    let toks := sscanf_tokens buffer
    if toks.any (fun t => decide (t.length ≥ 32)) then none
    else
      match toks with
      | [cmd, param1] => usb_dispatch s cmd param1 param2_init.data 2
      | [cmd, param1, param2] => usb_dispatch s cmd param1 param2 3
      | _ => some s


/-! ## Periodic runners (`src/tasks.c`)

One pass of the `while` loop of a periodic runner is embedded as the list of
its statements, run in order on the global state by the runner thread alone;
`self` is the position of the runner's own task in the table. -/

/-- The six periodic runners: `chain_pull_task`, `power_management_task`,
`temperature_regulation_task`, `lighting_control_task`, `display_task` and
`logging_task`. -/
inductive PeriodicRunner where
  | chain_pull
  | power
  | temperature
  | lighting
  | display
  | logging
  deriving DecidableEq, Repr

/-- The statements of a loop body: the assignment `self->state = st`, the call
`scheduler_task_complete(self->id)`, `sleep(seconds)`, the cabin loop of the
temperature runner (it only sleeps) and `display_terminal_update()`. -/
inductive RunnerOp where
  | set_state (st : TaskState)
  | task_complete
  | sleep (seconds : Nat)
  | regulate_cabins
  | display_terminal_update
  deriving DecidableEq, Repr

/-- The assignment `self->state = st`. -/
def set_task_state (s : SystemState) (self : Fin MAX_TASKS) (st : TaskState) :
    SystemState :=
  { s with tasks := Function.update s.tasks self { s.tasks self with state := st } }

/-- Effect of one statement of a runner on the global state. -/
def RunnerOp.exec (self : Fin MAX_TASKS) (now : Nat) (s : SystemState) :
    RunnerOp → Option SystemState
  | RunnerOp.set_state st => some (set_task_state s self st)
  | RunnerOp.task_complete => scheduler_task_complete s (s.tasks self).id now
  | RunnerOp.sleep _ => some s
  | RunnerOp.regulate_cabins => some s
  | RunnerOp.display_terminal_update => some s

/-- The statements of one pass of the loop body, in program order.  The power
runner reads `power_low` first and takes one of its two branches. -/
def PeriodicRunner.body (s : SystemState) : PeriodicRunner → List RunnerOp
  | PeriodicRunner.chain_pull =>
    [RunnerOp.set_state TaskState.TASK_READY, RunnerOp.sleep 2, RunnerOp.task_complete]
  | PeriodicRunner.power =>
    if s.power_low = true then
      [RunnerOp.set_state TaskState.TASK_RUNNING, RunnerOp.task_complete, RunnerOp.sleep 2]
    else
      [RunnerOp.set_state TaskState.TASK_READY, RunnerOp.sleep 3, RunnerOp.task_complete]
  | PeriodicRunner.temperature =>
    [RunnerOp.set_state TaskState.TASK_RUNNING, RunnerOp.regulate_cabins,
     RunnerOp.set_state TaskState.TASK_READY, RunnerOp.sleep 5, RunnerOp.task_complete]
  | PeriodicRunner.lighting =>
    [RunnerOp.set_state TaskState.TASK_RUNNING, RunnerOp.task_complete,
     RunnerOp.set_state TaskState.TASK_READY, RunnerOp.sleep 3]
  | PeriodicRunner.display =>
    [RunnerOp.set_state TaskState.TASK_RUNNING, RunnerOp.display_terminal_update,
     RunnerOp.task_complete, RunnerOp.set_state TaskState.TASK_READY, RunnerOp.sleep 2]
  | PeriodicRunner.logging =>
    [RunnerOp.set_state TaskState.TASK_RUNNING, RunnerOp.task_complete,
     RunnerOp.set_state TaskState.TASK_READY, RunnerOp.sleep 10]

/-- Runs a list of statements; the result is the list of the states after
each statement. -/
def run_ops (self : Fin MAX_TASKS) (now : Nat) : SystemState → List RunnerOp →
    Option (List SystemState)
  | _, [] => some []
  | s, op :: ops =>
    match op.exec self now s with
    | none => none
    | some s1 => (run_ops self now s1 ops).map (fun rest => s1 :: rest)

/-- One pass of the loop of a periodic runner: the states after each of its
statements. -/
def PeriodicRunner.iteration (r : PeriodicRunner) (self : Fin MAX_TASKS) (now : Nat)
    (s : SystemState) : Option (List SystemState) :=
  run_ops self now s (r.body s)

/-- The loop condition `g_system.system_running && self->is_active`. -/
def runner_loop_condition (s : SystemState) (self : Fin MAX_TASKS) : Prop :=
  s.system_running = true ∧ (s.tasks self).is_active = true

instance (s : SystemState) (self : Fin MAX_TASKS) :
    Decidable (runner_loop_condition s self) := by
  unfold runner_loop_condition
  infer_instance

/-- The cycle of a pass of the loop as the specification describes it: the
state of the task is Running at some point of the pass, and at the end of the
pass `execution_count` is one more than before and the state is Ready. -/
def ready_running_ready (r : PeriodicRunner) (self : Fin MAX_TASKS) (now : Nat)
    (s : SystemState) : Prop :=
  ∃ trace ∈ r.iteration self now s,
    (∃ st ∈ trace, (st.tasks self).state = TaskState.TASK_RUNNING) ∧
    ∃ last ∈ trace.getLast?,
      (last.tasks self).execution_count = (s.tasks self).execution_count + 1 ∧
      (last.tasks self).state = TaskState.TASK_READY

/-- The registered tasks in low power mode. -/
def low_power_state : SystemState :=
  handle_power_low registered_state


instance (r : PeriodicRunner) (self : Fin MAX_TASKS) (now : Nat) (s : SystemState) :
    Decidable (ready_running_ready r self now s) := by
  unfold ready_running_ready
  infer_instance


/-- The state `scheduler_task_complete` leaves when it updates task `self`:
`execution_count` is one more and `last_execution` is the clock reading. -/
def task_completed (s : SystemState) (self : Fin MAX_TASKS) (now : Nat) : SystemState :=
  { s with
    tasks := Function.update s.tasks self
               { s.tasks self with
                 execution_count := (s.tasks self).execution_count + 1
                 last_execution := now } }


/-! ## Shutdown against an event-driven runner

The two event-driven runners (`fire_emergency_task`,
`passenger_emergency_task`) and the shutdown path of `main`
(`signal_handler`, then `scheduler_stop`) are embedded as two threads that
take turns, one statement at a time, on the global state and the global
mutex.  The POSIX calls are embedded from their descriptions:
`pthread_mutex_lock` proceeds only when nobody holds the mutex,
`pthread_cond_wait` releases the mutex and blocks the caller,
`pthread_cond_broadcast` unblocks the threads that are blocked in
`pthread_cond_wait` at that moment and is not remembered otherwise, an
unblocked thread first takes the mutex again, and `pthread_join` proceeds
only when the joined thread has returned.  Spurious wake-ups are permitted by
POSIX but never promised, so they are not a step of the embedding. -/

/-- The two threads. -/
inductive ThreadId where
  | runner
  | main
  deriving DecidableEq, Repr

/-- The two event-driven runners and the flag each one tests. -/
inductive EventRunner where
  | fire
  | passenger
  deriving DecidableEq, Repr

/-- The flag an event-driven runner tests: `fire_active` in
`fire_emergency_task`, `emergency_active` in `passenger_emergency_task`. -/
def EventRunner.flag (s : SystemState) : EventRunner → Bool
  | EventRunner.fire => s.fire_active
  | EventRunner.passenger => s.emergency_active

/-- Program points of an event-driven runner. -/
inductive RunnerPc where
  /-- The loop test `while (g_system.system_running && self->is_active)`. -/
  | loop_test
  /-- The call `pthread_mutex_lock(&g_system.system_mutex)`. -/
  | lock
  /-- The test `if (g_system.fire_active)` with the assignment to `self->state`. -/
  | check_flag
  /-- The call `pthread_mutex_unlock` of the branch that runs. -/
  | unlock_running
  /-- The call `scheduler_task_complete(self->id)`. -/
  | task_complete
  /-- The call `sleep(1)`. -/
  | sleep
  /-- About to call `pthread_cond_wait`, holding the mutex. -/
  | cond_wait
  /-- Blocked inside `pthread_cond_wait`. -/
  | waiting
  /-- Unblocked inside `pthread_cond_wait`, taking the mutex again. -/
  | woken
  /-- The call `pthread_mutex_unlock` after `pthread_cond_wait`. -/
  | unlock_ready
  /-- The runner has returned (`return NULL`). -/
  | returned
  deriving DecidableEq, Repr

/-- Program points of the shutdown path of `main`. -/
inductive MainPc where
  /-- The assignment `g_system.system_running = false` of `signal_handler`. -/
  | signal
  /-- The call `pthread_mutex_lock` of `scheduler_stop`. -/
  | stop_lock
  /-- The loop `task->is_active = false` of `scheduler_stop`. -/
  | stop_mark
  /-- The call `pthread_mutex_unlock` of `scheduler_stop`. -/
  | stop_unlock
  /-- The call `pthread_cond_broadcast` of `scheduler_stop`. -/
  | stop_broadcast
  /-- The call `pthread_join` of `scheduler_stop` for the runner. -/
  | stop_join
  /-- Shutdown is over: `scheduler_stop` has returned. -/
  | stopped
  deriving DecidableEq, Repr

/-- The global state, the holder of `system_mutex` and the program points
of the two threads. -/
structure ShutdownState where
  sys : SystemState
  mutex : Option ThreadId
  runner : RunnerPc
  main : MainPc

/-- The first loop of `scheduler_stop`: `is_active = false` for every
registered task. -/
def stop_mark_inactive (s : SystemState) : SystemState :=
  { s with
    tasks := fun i =>
      if i.val < s.num_tasks then { s.tasks i with is_active := false } else s.tasks i }

/-- One statement of the event-driven runner `kind` whose task is `self`;
`none` when the runner is blocked or has returned. -/
def runner_step (kind : EventRunner) (self : Fin MAX_TASKS) (now : Nat)
    (st : ShutdownState) : Option ShutdownState :=
  match st.runner with
  | RunnerPc.loop_test =>
    if st.sys.system_running = true ∧ (st.sys.tasks self).is_active = true then
      some { st with runner := RunnerPc.lock }
    else some { st with runner := RunnerPc.returned }
  | RunnerPc.lock =>
    if st.mutex = none then
      some { st with mutex := some ThreadId.runner, runner := RunnerPc.check_flag }
    else none
  | RunnerPc.check_flag =>
    if kind.flag st.sys = true then
      some { st with sys := set_task_state st.sys self TaskState.TASK_RUNNING
                     runner := RunnerPc.unlock_running }
    else
      some { st with sys := set_task_state st.sys self TaskState.TASK_READY
                     runner := RunnerPc.cond_wait }
  | RunnerPc.unlock_running =>
    some { st with mutex := none, runner := RunnerPc.task_complete }
  | RunnerPc.task_complete =>
    if st.mutex = none then
      match scheduler_task_complete st.sys (st.sys.tasks self).id now with
      | some sys1 => some { st with sys := sys1, runner := RunnerPc.sleep }
      | none => none
    else none
  | RunnerPc.sleep => some { st with runner := RunnerPc.loop_test }
  | RunnerPc.cond_wait => some { st with mutex := none, runner := RunnerPc.waiting }
  | RunnerPc.waiting => none
  | RunnerPc.woken =>
    if st.mutex = none then
      some { st with mutex := some ThreadId.runner, runner := RunnerPc.unlock_ready }
    else none
  | RunnerPc.unlock_ready => some { st with mutex := none, runner := RunnerPc.loop_test }
  | RunnerPc.returned => none

/-- One statement of the shutdown path; `none` when it is blocked or has
finished. -/
def main_step (st : ShutdownState) : Option ShutdownState :=
  match st.main with
  | MainPc.signal =>
    some { st with sys := { st.sys with system_running := false }
                   main := MainPc.stop_lock }
  | MainPc.stop_lock =>
    if st.mutex = none then
      some { st with mutex := some ThreadId.main, main := MainPc.stop_mark }
    else none
  | MainPc.stop_mark =>
    some { st with sys := stop_mark_inactive st.sys, main := MainPc.stop_unlock }
  | MainPc.stop_unlock => some { st with mutex := none, main := MainPc.stop_broadcast }
  | MainPc.stop_broadcast =>
    some { st with
      runner := if st.runner = RunnerPc.waiting then RunnerPc.woken else st.runner
      main := MainPc.stop_join }
  | MainPc.stop_join =>
    if st.runner = RunnerPc.returned then some { st with main := MainPc.stopped }
    else none
  | MainPc.stopped => none

/-- One statement of the thread `who`. -/
def thread_step (kind : EventRunner) (self : Fin MAX_TASKS) (now : Nat)
    (st : ShutdownState) : ThreadId → Option ShutdownState
  | ThreadId.runner => runner_step kind self now st
  | ThreadId.main => main_step st

/-- An interleaving: the threads of the list take one statement each, in
that order; `none` when a thread is chosen that cannot proceed. -/
def run_schedule (kind : EventRunner) (self : Fin MAX_TASKS) (now : Nat) :
    ShutdownState → List ThreadId → Option ShutdownState
  | st, [] => some st
  | st, who :: rest =>
    (thread_step kind self now st who).bind (fun st1 => run_schedule kind self now st1 rest)

/-- The moment the runner has been started and shutdown is about to be
requested: the registered tasks, no alarm flag set, the mutex free, the runner
at the head of its loop. -/
def shutdown_start : ShutdownState :=
  { sys := registered_state, mutex := none,
    runner := RunnerPc.loop_test, main := MainPc.signal }

/-- The interleaving in which the runner passes its loop test, the whole of
the shutdown up to the broadcast follows, and then the runner goes on to
wait. -/
def lost_wakeup_schedule : List ThreadId :=
  [ThreadId.runner,
   ThreadId.main, ThreadId.main, ThreadId.main, ThreadId.main, ThreadId.main,
   ThreadId.runner, ThreadId.runner, ThreadId.runner]

/-- The interleaving in which the runner is already waiting when shutdown
starts. -/
def waiting_first_schedule : List ThreadId :=
  [ThreadId.runner, ThreadId.runner, ThreadId.runner, ThreadId.runner,
   ThreadId.main, ThreadId.main, ThreadId.main, ThreadId.main, ThreadId.main,
   ThreadId.runner, ThreadId.runner, ThreadId.runner,
   ThreadId.main]

/-! ## Registration (`scheduler_add_task`) -/

/-- C1: when the registry already holds `MAX_TASKS` = 8 tasks,
`scheduler_add_task` returns -1 for every name, priority and task function,
and the state it leaves is the state it found: `num_tasks` is still 8 and
every task entry is unchanged. -/
theorem scheduler_add_task_full (s : SystemState) (name : String) (priority : Int)
    (task_func now : Nat) (h : s.num_tasks = MAX_TASKS) :
    (scheduler_add_task s name priority task_func now).1 = -1 ∧
    (scheduler_add_task s name priority task_func now).2 = s ∧
    (scheduler_add_task s name priority task_func now).2.num_tasks = 8 ∧
    ∀ i : Fin MAX_TASKS,
      (scheduler_add_task s name priority task_func now).2.tasks i = s.tasks i := by
  have hge : s.num_tasks ≥ MAX_TASKS := by omega
  have hrun : scheduler_add_task s name priority task_func now = (-1, s) := by
    unfold scheduler_add_task
    rw [dif_pos hge]
  rw [hrun]
  exact ⟨rfl, rfl, h, fun _ => rfl⟩

/-- Witness of C1 on the table filled by `register_all_tasks`. -/
theorem scheduler_add_task_full_witness :
    registered_state.num_tasks = MAX_TASKS ∧
    (scheduler_add_task registered_state "Ninth" 5 9 0).1 = -1 ∧
    (scheduler_add_task registered_state "Ninth" 5 9 0).2 = registered_state ∧
    (scheduler_add_task registered_state "Ninth" 5 9 0).2.num_tasks = 8 ∧
    ∀ i : Fin MAX_TASKS,
      (scheduler_add_task registered_state "Ninth" 5 9 0).2.tasks i
        = registered_state.tasks i :=
  ⟨by decide, scheduler_add_task_full registered_state "Ninth" 5 9 0 (by decide)⟩

/-- C2: with `num_tasks = n < MAX_TASKS`, `scheduler_add_task` returns `n`,
raises `num_tasks` to `n + 1` and writes entry `n` with id `n`, the given
priority, state Ready, `is_active = true` and `execution_count = 0` (and the
copied name, the task function and the clock reading); every other entry of
the table, in particular entries `0 .. n-1`, is unchanged. -/
theorem scheduler_add_task_appends (s : SystemState) (name : String) (priority : Int)
    (task_func now : Nat) (n : Nat) (hn : s.num_tasks = n) (h : n < MAX_TASKS) :
    (scheduler_add_task s name priority task_func now).1 = (n : Int) ∧
    (scheduler_add_task s name priority task_func now).2.num_tasks = n + 1 ∧
    ((scheduler_add_task s name priority task_func now).2.tasks ⟨n, h⟩).id = (n : Int) ∧
    ((scheduler_add_task s name priority task_func now).2.tasks ⟨n, h⟩).priority
      = priority ∧
    ((scheduler_add_task s name priority task_func now).2.tasks ⟨n, h⟩).state
      = TaskState.TASK_READY ∧
    ((scheduler_add_task s name priority task_func now).2.tasks ⟨n, h⟩).is_active
      = true ∧
    ((scheduler_add_task s name priority task_func now).2.tasks ⟨n, h⟩).execution_count
      = 0 ∧
    ((scheduler_add_task s name priority task_func now).2.tasks ⟨n, h⟩).name
      = copy_name name ∧
    ((scheduler_add_task s name priority task_func now).2.tasks ⟨n, h⟩).task_function
      = task_func ∧
    ((scheduler_add_task s name priority task_func now).2.tasks ⟨n, h⟩).last_execution
      = now ∧
    (∀ i : Fin MAX_TASKS, i.val < n →
      (scheduler_add_task s name priority task_func now).2.tasks i = s.tasks i) ∧
    (∀ i : Fin MAX_TASKS, n < i.val →
      (scheduler_add_task s name priority task_func now).2.tasks i = s.tasks i) := by
  subst hn
  have hlt : ¬ s.num_tasks ≥ MAX_TASKS := by omega
  unfold scheduler_add_task
  rw [dif_neg hlt]
  refine ⟨rfl, rfl, ?_, ?_, ?_, ?_, ?_, ?_, ?_, ?_, ?_, ?_⟩
  · simp
  · simp
  · simp
  · simp
  · simp
  · simp
  · simp
  · simp
  · intro i hi
    have hne : i ≠ (⟨s.num_tasks, h⟩ : Fin MAX_TASKS) := by
      intro he
      rw [he] at hi
      exact Nat.lt_irrefl _ hi
    simp [Function.update_noteq hne]
  · intro i hi
    have hne : i ≠ (⟨s.num_tasks, h⟩ : Fin MAX_TASKS) := by
      intro he
      rw [he] at hi
      exact Nat.lt_irrefl _ hi
    simp [Function.update_noteq hne]

/-- Witness of C2: a third task is appended to a table that holds two. -/
theorem scheduler_add_task_appends_witness :
    two_tasks_state.num_tasks = 2 ∧ 2 < MAX_TASKS ∧
    (scheduler_add_task two_tasks_state "Third" 7 3 11).1 = ((2 : Nat) : Int) ∧
    (scheduler_add_task two_tasks_state "Third" 7 3 11).2.num_tasks = 2 + 1 ∧
    ((scheduler_add_task two_tasks_state "Third" 7 3 11).2.tasks
      ⟨2, by decide⟩).id = ((2 : Nat) : Int) ∧
    ((scheduler_add_task two_tasks_state "Third" 7 3 11).2.tasks
      ⟨2, by decide⟩).priority = 7 ∧
    ((scheduler_add_task two_tasks_state "Third" 7 3 11).2.tasks
      ⟨2, by decide⟩).state = TaskState.TASK_READY ∧
    ((scheduler_add_task two_tasks_state "Third" 7 3 11).2.tasks
      ⟨2, by decide⟩).is_active = true ∧
    ((scheduler_add_task two_tasks_state "Third" 7 3 11).2.tasks
      ⟨2, by decide⟩).execution_count = 0 ∧
    ((scheduler_add_task two_tasks_state "Third" 7 3 11).2.tasks
      ⟨2, by decide⟩).name = copy_name "Third" ∧
    ((scheduler_add_task two_tasks_state "Third" 7 3 11).2.tasks
      ⟨2, by decide⟩).task_function = 3 ∧
    ((scheduler_add_task two_tasks_state "Third" 7 3 11).2.tasks
      ⟨2, by decide⟩).last_execution = 11 ∧
    (∀ i : Fin MAX_TASKS, i.val < 2 →
      (scheduler_add_task two_tasks_state "Third" 7 3 11).2.tasks i
        = two_tasks_state.tasks i) ∧
    (∀ i : Fin MAX_TASKS, 2 < i.val →
      (scheduler_add_task two_tasks_state "Third" 7 3 11).2.tasks i
        = two_tasks_state.tasks i) :=
  ⟨by decide, by decide,
    scheduler_add_task_appends two_tasks_state "Third" 7 3 11 2 (by decide) (by decide)⟩

/-- The bound `num_tasks ≤ MAX_TASKS` holds after `scheduler_init`. -/
theorem scheduler_init_bound (s : SystemState) :
    (scheduler_init s).num_tasks ≤ MAX_TASKS := by
  simp [scheduler_init]

/-- The bound `num_tasks ≤ MAX_TASKS` is kept by `scheduler_add_task`. -/
theorem scheduler_add_task_bound (s : SystemState) (name : String) (priority : Int)
    (task_func now : Nat) (h : s.num_tasks ≤ MAX_TASKS) :
    (scheduler_add_task s name priority task_func now).2.num_tasks ≤ MAX_TASKS := by
  unfold scheduler_add_task
  by_cases hge : s.num_tasks ≥ MAX_TASKS
  · rw [dif_pos hge]
    exact h
  · rw [dif_neg hge]
    show s.num_tasks + 1 ≤ MAX_TASKS
    omega

/-! ## Selection (`scheduler_get_highest_priority_task`) -/

/-- An iteration of the selection loop succeeds only for a subscript inside
the table. -/
theorem scan_step_some_lt (s : SystemState) (acc acc2 : ScanState) (i : Nat)
    (h : scan_step s acc i = some acc2) : i < MAX_TASKS := by
  by_contra hi
  unfold scan_step at h
  rw [dif_neg hi] at h
  exact Option.noConfusion h

/-- The first `k` iterations succeed only when they stay inside the table. -/
theorem scan_some_le (s : SystemState) :
    ∀ (k : Nat) (acc : ScanState), scan s k = some acc → k ≤ MAX_TASKS := by
  intro k
  cases k with
  | zero => intro _ _; exact Nat.zero_le _
  | succ k =>
    intro acc h
    simp only [scan, Option.bind_eq_some] at h
    obtain ⟨a, _, hstep⟩ := h
    exact scan_step_some_lt s a acc k hstep

/-- Inside the table the loop always runs through. -/
theorem scan_defined (s : SystemState) :
    ∀ k : Nat, k ≤ MAX_TASKS → ∃ acc, scan s k = some acc := by
  intro k
  induction k with
  | zero => intro _; exact ⟨_, rfl⟩
  | succ k ih =>
    intro hk
    obtain ⟨a, ha⟩ := ih (by omega)
    have hlt : k < MAX_TASKS := by omega
    simp only [scan, ha, Option.some_bind]
    unfold scan_step
    rw [dif_pos hlt]
    by_cases hr : (s.tasks ⟨k, hlt⟩).is_active = true ∧
        (s.tasks ⟨k, hlt⟩).state = TaskState.TASK_READY
    · by_cases hp : (s.tasks ⟨k, hlt⟩).priority > a.max_priority
      · rw [if_pos hr, if_pos hp]
        exact ⟨_, rfl⟩
      · rw [if_pos hr, if_neg hp]
        exact ⟨_, rfl⟩
    · rw [if_neg hr]
      exact ⟨_, rfl⟩

/-- The loop invariant `scan_inv` holds after any number of iterations. -/
theorem scan_inv_holds (s : SystemState) :
    ∀ (k : Nat) (acc : ScanState), scan s k = some acc → scan_inv s k acc := by
  intro k
  induction k with
  | zero =>
    intro acc h
    simp only [scan, Option.some.injEq] at h
    subst h
    refine ⟨le_refl _, ?_, fun _ => rfl, ?_⟩
    · intro j hj
      exact absurd hj (Nat.not_lt_zero _)
    · intro t ht
      exact Option.noConfusion ht
  | succ k ih =>
    intro acc h
    simp only [scan, Option.bind_eq_some] at h
    obtain ⟨a, ha, hstep⟩ := h
    have hlt : k < MAX_TASKS := scan_step_some_lt s a acc k hstep
    obtain ⟨hlow, hmax, hnone, hsome⟩ := ih a ha
    unfold scan_step at hstep
    rw [dif_pos hlt] at hstep
    by_cases hr : (s.tasks ⟨k, hlt⟩).is_active = true ∧
        (s.tasks ⟨k, hlt⟩).state = TaskState.TASK_READY
    · by_cases hp : (s.tasks ⟨k, hlt⟩).priority > a.max_priority
      · rw [if_pos hr, if_pos hp] at hstep
        simp only [Option.some.injEq] at hstep
        subst hstep
        have hp2 : a.max_priority < (s.tasks ⟨k, hlt⟩).priority := hp
        refine ⟨by show (-1 : Int) ≤ (s.tasks ⟨k, hlt⟩).priority; omega, ?_, ?_, ?_⟩
        · intro j hj hjr
          show (s.tasks j).priority ≤ (s.tasks ⟨k, hlt⟩).priority
          rcases Nat.lt_succ_iff_lt_or_eq.mp hj with hjk | hjk
          · have := hmax j hjk hjr
            omega
          · have hje : j = ⟨k, hlt⟩ := Fin.ext hjk
            rw [hje]
        · intro hn
          exact Option.noConfusion hn
        · intro t ht
          have hte : t = ⟨k, hlt⟩ := by
            simp only [Option.some.injEq] at ht
            exact ht.symm
          subst hte
          refine ⟨Nat.lt_succ_self k, hr, rfl, ?_, ?_⟩
          · show (-1 : Int) < (s.tasks ⟨k, hlt⟩).priority
            omega
          · intro j hj hjr
            show (s.tasks j).priority < (s.tasks ⟨k, hlt⟩).priority
            have := hmax j hj hjr
            omega
      · rw [if_pos hr, if_neg hp] at hstep
        simp only [Option.some.injEq] at hstep
        subst hstep
        refine ⟨hlow, ?_, hnone, ?_⟩
        · intro j hj hjr
          rcases Nat.lt_succ_iff_lt_or_eq.mp hj with hjk | hjk
          · exact hmax j hjk hjr
          · have hje : j = ⟨k, hlt⟩ := Fin.ext hjk
            rw [hje]
            exact not_lt.mp hp
        · intro t ht
          obtain ⟨h1, h2, h3, h4, h5⟩ := hsome t ht
          exact ⟨Nat.lt_succ_of_lt h1, h2, h3, h4, h5⟩
    · rw [if_neg hr] at hstep
      simp only [Option.some.injEq] at hstep
      subst hstep
      refine ⟨hlow, ?_, hnone, ?_⟩
      · intro j hj hjr
        rcases Nat.lt_succ_iff_lt_or_eq.mp hj with hjk | hjk
        · exact hmax j hjk hjr
        · have hje : j = ⟨k, hlt⟩ := Fin.ext hjk
          rw [hje] at hjr
          exact absurd hjr hr
      · intro t ht
        obtain ⟨h1, h2, h3, h4, h5⟩ := hsome t ht
        exact ⟨Nat.lt_succ_of_lt h1, h2, h3, h4, h5⟩

/-- A result of the selection is the `highest` local after `num_tasks`
iterations of the loop. -/
theorem highest_priority_of_scan (s : SystemState) (r : Option (Fin MAX_TASKS))
    (h : scheduler_get_highest_priority_task s = some r) :
    ∃ acc, scan s s.num_tasks = some acc ∧ acc.highest = r := by
  unfold scheduler_get_highest_priority_task at h
  cases hs : scan s s.num_tasks with
  | none =>
    rw [hs] at h
    exact Option.noConfusion h
  | some acc =>
    rw [hs] at h
    exact ⟨acc, rfl, Option.some.inj h⟩

/-- When the task count is within the table, the selection returns (a task
or NULL). -/
theorem highest_priority_defined (s : SystemState) (h : s.num_tasks ≤ MAX_TASKS) :
    ∃ r, scheduler_get_highest_priority_task s = some r := by
  obtain ⟨acc, hacc⟩ := scan_defined s s.num_tasks h
  exact ⟨acc.highest, by simp [scheduler_get_highest_priority_task, hacc]⟩

/-- A returned task is registered, active and Ready, and no registered active
Ready task has a greater priority. -/
theorem highest_priority_sound (s : SystemState) (t : Fin MAX_TASKS)
    (h : scheduler_get_highest_priority_task s = some (some t)) :
    task_registered s t ∧ task_ready s t ∧
    ∀ j : Fin MAX_TASKS, task_registered s j → task_ready s j →
      (s.tasks j).priority ≤ (s.tasks t).priority := by
  obtain ⟨acc, hacc, hhigh⟩ := highest_priority_of_scan s (some t) h
  obtain ⟨_, hmax, _, hsome⟩ := scan_inv_holds s s.num_tasks acc hacc
  obtain ⟨h1, h2, h3, _, _⟩ := hsome t hhigh
  refine ⟨h1, h2, ?_⟩
  intro j hj hjr
  rw [h3]
  exact hmax j hj hjr

/-- A NULL result means that every registered active Ready task has a
priority of at most -1, the initial value of `max_priority`. -/
theorem highest_priority_null (s : SystemState)
    (h : scheduler_get_highest_priority_task s = some none) :
    ∀ j : Fin MAX_TASKS, task_registered s j → task_ready s j →
      (s.tasks j).priority ≤ -1 := by
  obtain ⟨acc, hacc, hhigh⟩ := highest_priority_of_scan s none h
  obtain ⟨_, hmax, hnone, _⟩ := scan_inv_holds s s.num_tasks acc hacc
  intro j hj hjr
  have := hmax j hj hjr
  rw [hnone hhigh] at this
  exact this

/-- On a table whose registered active Ready tasks all have a priority of at
least 0, a task is returned exactly when some registered task is active and
Ready. -/
theorem highest_priority_nonneg_iff (s : SystemState) (h : s.num_tasks ≤ MAX_TASKS)
    (hpos : ∀ j : Fin MAX_TASKS, task_registered s j → task_ready s j →
      0 ≤ (s.tasks j).priority) :
    (∃ t, scheduler_get_highest_priority_task s = some (some t)) ↔
    (∃ j : Fin MAX_TASKS, task_registered s j ∧ task_ready s j) := by
  constructor
  · rintro ⟨t, ht⟩
    obtain ⟨h1, h2, _⟩ := highest_priority_sound s t ht
    exact ⟨t, h1, h2⟩
  · rintro ⟨j, hj, hjr⟩
    obtain ⟨r, hr⟩ := highest_priority_defined s h
    cases r with
    | some t => exact ⟨t, hr⟩
    | none =>
      have h1 := highest_priority_null s hr j hj hjr
      have h2 := hpos j hj hjr
      omega

/-- C3, evaluated on the code: a table whose only registered task is active
and Ready with priority -1.  A registered active Ready task exists, yet
`scheduler_get_highest_priority_task` returns NULL, because the test
`task->priority > max_priority` starts from `max_priority = -1`. -/
theorem highest_priority_negative_is_null :
    task_registered negative_priority_state 0 ∧
    task_ready negative_priority_state 0 ∧
    (negative_priority_state.tasks 0).priority = -1 ∧
    scheduler_get_highest_priority_task negative_priority_state = some none := by
  decide

/-- C4: when `scheduler_get_highest_priority_task` returns task `t`, every
active Ready task registered before `t` (at a smaller position of the table,
which is also its `id`) has a priority strictly less than that of `t`.  In
particular, for two registered active Ready tasks `a` before `b` of equal
priority that no registered active Ready task exceeds, the result is not `b`:
it has the priority of `a` and is registered no later than `a`, and it is `a`
itself when no earlier active Ready task has that priority. -/
theorem highest_priority_earliest_wins (s : SystemState) (t : Fin MAX_TASKS)
    (h : scheduler_get_highest_priority_task s = some (some t)) :
    (∀ j : Fin MAX_TASKS, j.val < t.val → task_ready s j →
      (s.tasks j).priority < (s.tasks t).priority) ∧
    (∀ a b : Fin MAX_TASKS,
      task_registered s a → task_ready s a →
      task_registered s b → task_ready s b →
      a.val < b.val → (s.tasks a).priority = (s.tasks b).priority →
      (∀ j : Fin MAX_TASKS, task_registered s j → task_ready s j →
        (s.tasks j).priority ≤ (s.tasks a).priority) →
      t ≠ b ∧ t.val ≤ a.val ∧ (s.tasks t).priority = (s.tasks a).priority ∧
      ((∀ j : Fin MAX_TASKS, j.val < a.val → task_ready s j →
        (s.tasks j).priority ≠ (s.tasks a).priority) → t = a)) := by
  have hsound := highest_priority_sound s t h
  obtain ⟨acc, hacc, hhigh⟩ := highest_priority_of_scan s (some t) h
  obtain ⟨_, _, _, hsome⟩ := scan_inv_holds s s.num_tasks acc hacc
  obtain ⟨_, _, h3, _, h5⟩ := hsome t hhigh
  have hfirst : ∀ j : Fin MAX_TASKS, j.val < t.val → task_ready s j →
      (s.tasks j).priority < (s.tasks t).priority := by
    intro j hj hjr
    rw [h3]
    exact h5 j hj hjr
  refine ⟨hfirst, ?_⟩
  intro a b ha har _ _ hab _ hamax
  obtain ⟨htreg, htr, htmax⟩ := hsound
  have hpe : (s.tasks t).priority = (s.tasks a).priority :=
    le_antisymm (hamax t htreg htr) (htmax a ha har)
  have hle : t.val ≤ a.val := by
    by_contra hc
    have := hfirst a (by omega) har
    omega
  refine ⟨?_, hle, hpe, ?_⟩
  · intro htb
    rw [htb] at hle
    omega
  · intro hno
    rcases Nat.lt_or_eq_of_le hle with hlt | heq
    · exact absurd hpe (hno t hlt htr)
    · exact Fin.ext heq

/-- Witness of C4: both tasks of `two_tasks_state` are active and Ready with
priority 5; the one registered first (position 0) is returned, not the one at
position 1. -/
theorem highest_priority_earliest_wins_witness :
    scheduler_get_highest_priority_task two_tasks_state = some (some 0) ∧
    task_ready two_tasks_state 0 ∧ task_ready two_tasks_state 1 ∧
    (two_tasks_state.tasks 0).priority = (two_tasks_state.tasks 1).priority ∧
    (∀ j : Fin MAX_TASKS, j.val < (0 : Fin MAX_TASKS).val →
      task_ready two_tasks_state j →
      (two_tasks_state.tasks j).priority < (two_tasks_state.tasks 0).priority) ∧
    (0 : Fin MAX_TASKS) ≠ 1 := by
  have h := highest_priority_earliest_wins two_tasks_state 0 (by decide)
  have h2 := h.2 0 1 (by decide) (by decide) (by decide) (by decide) (by decide)
    (by decide) (by decide)
  exact ⟨by decide, by decide, by decide, by decide, h.1, h2.1⟩

/-! ## Completion (`scheduler_task_complete`) -/

/-- A C `int` in `[0, MAX_TASKS)` is a subscript of the task table. -/
theorem task_index_of_range (task_id : Int) (h0 : 0 ≤ task_id) (h1 : task_id < 8) :
    ∃ i : Fin MAX_TASKS, task_index task_id = some i ∧ (i.val : Int) = task_id := by
  have h : 0 ≤ task_id ∧ task_id < 8 := ⟨h0, h1⟩
  refine ⟨⟨task_id.toNat, by show task_id.toNat < 8; omega⟩, ?_, ?_⟩
  · unfold task_index
    rw [dif_pos h]
  · show (task_id.toNat : Int) = task_id
    omega

/-- C5: on a state whose task count is within the table, for every integer
`task_id`: when `0 <= task_id < num_tasks`, `scheduler_task_complete` adds
exactly one to `execution_count` of that task, sets its `last_execution` to
the clock reading and changes nothing else (no other field of the task, no
other task, no cabin, no flag, not `num_tasks`); when `task_id` is negative
or `task_id >= num_tasks` the state is left as it is. -/
theorem scheduler_task_complete_effect (s : SystemState) (task_id : Int) (now : Nat)
    (hwf : s.num_tasks ≤ MAX_TASKS) :
    (0 ≤ task_id ∧ task_id < (s.num_tasks : Int) →
      ∃ (i : Fin MAX_TASKS) (s' : SystemState),
        (i.val : Int) = task_id ∧
        scheduler_task_complete s task_id now = some s' ∧
        (s'.tasks i).execution_count = (s.tasks i).execution_count + 1 ∧
        s'.tasks i = { s.tasks i with
                       execution_count := (s.tasks i).execution_count + 1
                       last_execution := now } ∧
        (∀ j : Fin MAX_TASKS, j ≠ i → s'.tasks j = s.tasks j) ∧
        s'.cabins = s.cabins ∧ s'.num_tasks = s.num_tasks ∧
        s'.system_running = s.system_running ∧ s'.power_low = s.power_low ∧
        s'.emergency_active = s.emergency_active ∧
        s'.fire_active = s.fire_active) ∧
    (task_id < 0 ∨ (s.num_tasks : Int) ≤ task_id →
      scheduler_task_complete s task_id now = some s) := by
  constructor
  · intro hr
    have h8 : task_id < 8 := by
      have : (s.num_tasks : Int) ≤ 8 := by exact_mod_cast hwf
      omega
    obtain ⟨i, hi, hval⟩ := task_index_of_range task_id hr.1 h8
    let done : Task :=
      { s.tasks i with
        execution_count := (s.tasks i).execution_count + 1
        last_execution := now }
    refine ⟨i, { s with tasks := Function.update s.tasks i done },
      hval, ?_, ?_, ?_, ?_, rfl, rfl, rfl, rfl, rfl, rfl⟩
    · unfold scheduler_task_complete
      rw [if_pos hr, hi]
    · simp
    · simp
    · intro j hj
      simp [Function.update_noteq hj]
  · intro hout
    have hn : ¬ (0 ≤ task_id ∧ task_id < (s.num_tasks : Int)) := by omega
    unfold scheduler_task_complete
    rw [if_neg hn]

/-- Witness of C5: task 3 of the full table completes at clock reading 42. -/
theorem scheduler_task_complete_effect_witness :
    registered_state.num_tasks ≤ MAX_TASKS ∧
    (0 ≤ (3 : Int) ∧ (3 : Int) < (registered_state.num_tasks : Int) →
      ∃ (i : Fin MAX_TASKS) (s' : SystemState),
        (i.val : Int) = 3 ∧
        scheduler_task_complete registered_state 3 42 = some s' ∧
        (s'.tasks i).execution_count = (registered_state.tasks i).execution_count + 1 ∧
        s'.tasks i = { registered_state.tasks i with
                       execution_count := (registered_state.tasks i).execution_count + 1
                       last_execution := 42 } ∧
        (∀ j : Fin MAX_TASKS, j ≠ i → s'.tasks j = registered_state.tasks j) ∧
        s'.cabins = registered_state.cabins ∧
        s'.num_tasks = registered_state.num_tasks ∧
        s'.system_running = registered_state.system_running ∧
        s'.power_low = registered_state.power_low ∧
        s'.emergency_active = registered_state.emergency_active ∧
        s'.fire_active = registered_state.fire_active) ∧
    ((3 : Int) < 0 ∨ (registered_state.num_tasks : Int) ≤ 3 →
      scheduler_task_complete registered_state 3 42 = some registered_state) :=
  ⟨by decide, scheduler_task_complete_effect registered_state 3 42 (by decide)⟩

/-! ## Cabin handlers (`src/tasks.c`) -/

/-- The position of a cabin, as a C `int`, is a valid subscript and denotes
that cabin. -/
theorem cabin_index_of_fin (i : Fin NUM_CABINS) : cabin_index (i.val : Int) = some i := by
  have hi : i.val < 10 := i.isLt
  have h : 0 ≤ (i.val : Int) ∧ (i.val : Int) < 10 := by omega
  unfold cabin_index
  rw [dif_pos h]
  congr 1

/-- A C `int` in `[0, NUM_CABINS)` is the position of a cabin. -/
theorem cabin_index_of_range (cabin_id : Int) (h0 : 0 ≤ cabin_id) (h1 : cabin_id < 10) :
    ∃ i : Fin NUM_CABINS, (i.val : Int) = cabin_id :=
  ⟨⟨cabin_id.toNat, by show cabin_id.toNat < 10; omega⟩, by
    show (cabin_id.toNat : Int) = cabin_id
    omega⟩

/-- A subscript accepted by `cabin_index` is the `int` it was made from. -/
theorem cabin_index_some (cabin_id : Int) (i : Fin NUM_CABINS)
    (h : cabin_index cabin_id = some i) : (i.val : Int) = cabin_id := by
  unfold cabin_index at h
  by_cases hr : 0 ≤ cabin_id ∧ cabin_id < 10
  · rw [dif_pos hr] at h
    have := Option.some.inj h
    subst this
    show (cabin_id.toNat : Int) = cabin_id
    omega
  · rw [dif_neg hr] at h
    exact Option.noConfusion h

/-- C6: for a cabin `i` (index in `[0, 10)`) in state Emergency, Fire or
TempAdjust and every boolean `is_on`, `control_light` returns a state in which
`light_on` of that cabin is `is_on`, its state, temperature and id are the old
ones, and every other cabin is unchanged. -/
theorem control_light_keeps_state (s : SystemState) (i : Fin NUM_CABINS) (is_on : Bool)
    (hst : (s.cabins i).state = CabinState.STATE_EMERGENCY ∨
      (s.cabins i).state = CabinState.STATE_FIRE ∨
      (s.cabins i).state = CabinState.STATE_TEMP_ADJUST) :
    ∃ s' : SystemState, control_light s (i.val : Int) is_on = some s' ∧
      (s'.cabins i).light_on = is_on ∧
      (s'.cabins i).state = (s.cabins i).state ∧
      (s'.cabins i).temperature = (s.cabins i).temperature ∧
      (s'.cabins i).id = (s.cabins i).id ∧
      ∀ j : Fin NUM_CABINS, j ≠ i → s'.cabins j = s.cabins j := by
  unfold control_light
  rw [cabin_index_of_fin]
  refine ⟨_, rfl, ?_, ?_, ?_, ?_, ?_⟩
  · cases is_on <;> rcases hst with h | h | h <;> simp [h]
  · cases is_on <;> rcases hst with h | h | h <;> simp [h]
  · cases is_on <;> rcases hst with h | h | h <;> simp [h]
  · cases is_on <;> rcases hst with h | h | h <;> simp [h]
  · intro j hj
    simp [Function.update_noteq hj]

/-- Witness of C6: switching the light on in cabin 3, which is on fire. -/
theorem control_light_keeps_state_witness :
    ((mixed_cabins_state.cabins 3).state = CabinState.STATE_EMERGENCY ∨
      (mixed_cabins_state.cabins 3).state = CabinState.STATE_FIRE ∨
      (mixed_cabins_state.cabins 3).state = CabinState.STATE_TEMP_ADJUST) ∧
    ∃ s' : SystemState,
      control_light mixed_cabins_state (((3 : Fin NUM_CABINS).val : Nat) : Int) true
        = some s' ∧
      (s'.cabins 3).light_on = true ∧
      (s'.cabins 3).state = (mixed_cabins_state.cabins 3).state ∧
      (s'.cabins 3).temperature = (mixed_cabins_state.cabins 3).temperature ∧
      (s'.cabins 3).id = (mixed_cabins_state.cabins 3).id ∧
      ∀ j : Fin NUM_CABINS, j ≠ 3 → s'.cabins j = mixed_cabins_state.cabins j :=
  ⟨by decide, control_light_keeps_state mixed_cabins_state 3 true (by decide)⟩

/-- C7: for every cabin `i` (index in `[0, 10)`), `control_light(i, true)` on
a Normal cabin gives state LightOn with `light_on = true`, and
`control_light(i, false)` on a LightOn cabin gives state Normal with
`light_on = false`. -/
theorem control_light_toggles (s : SystemState) (i : Fin NUM_CABINS) :
    ((s.cabins i).state = CabinState.STATE_NORMAL →
      ∃ s' : SystemState, control_light s (i.val : Int) true = some s' ∧
        (s'.cabins i).state = CabinState.STATE_LIGHT_ON ∧
        (s'.cabins i).light_on = true) ∧
    ((s.cabins i).state = CabinState.STATE_LIGHT_ON →
      ∃ s' : SystemState, control_light s (i.val : Int) false = some s' ∧
        (s'.cabins i).state = CabinState.STATE_NORMAL ∧
        (s'.cabins i).light_on = false) := by
  constructor
  · intro h
    unfold control_light
    rw [cabin_index_of_fin]
    refine ⟨_, rfl, ?_, ?_⟩
    · simp [h]
    · simp [h]
  · intro h
    unfold control_light
    rw [cabin_index_of_fin]
    refine ⟨_, rfl, ?_, ?_⟩
    · simp [h]
    · simp [h]

/-- Witness of C7: light on in the Normal cabin 0 of the initial state, light
off in the LightOn cabin 1 of `mixed_cabins_state`. -/
theorem control_light_toggles_witness :
    (init_state.cabins 0).state = CabinState.STATE_NORMAL ∧
    (mixed_cabins_state.cabins 1).state = CabinState.STATE_LIGHT_ON ∧
    (∃ s' : SystemState,
      control_light init_state (((0 : Fin NUM_CABINS).val : Nat) : Int) true = some s' ∧
      (s'.cabins 0).state = CabinState.STATE_LIGHT_ON ∧
      (s'.cabins 0).light_on = true) ∧
    (∃ s' : SystemState,
      control_light mixed_cabins_state (((1 : Fin NUM_CABINS).val : Nat) : Int) false
        = some s' ∧
      (s'.cabins 1).state = CabinState.STATE_NORMAL ∧
      (s'.cabins 1).light_on = false) :=
  ⟨by decide, by decide,
    (control_light_toggles init_state 0).1 (by decide),
    (control_light_toggles mixed_cabins_state 1).2 (by decide)⟩

/-- C8: for every state and every cabin `i` (index in `[0, 10)`),
`handle_fire_alert` returns a state in which that cabin is in state Fire with
`light_on = false` and `fire_active` is true; a second call on that state
returns the very same state. -/
theorem handle_fire_alert_idempotent (s : SystemState) (i : Fin NUM_CABINS) :
    ∃ s' : SystemState, handle_fire_alert s (i.val : Int) = some s' ∧
      (s'.cabins i).state = CabinState.STATE_FIRE ∧
      (s'.cabins i).light_on = false ∧
      s'.fire_active = true ∧
      handle_fire_alert s' (i.val : Int) = some s' := by
  unfold handle_fire_alert
  rw [cabin_index_of_fin]
  refine ⟨_, rfl, ?_, ?_, rfl, ?_⟩
  · simp
  · simp
  · simp

/-- Witness of C8: `fire_alert(cabin=3)` on the initial state. -/
theorem handle_fire_alert_idempotent_witness :
    ∃ s' : SystemState,
      handle_fire_alert init_state (((3 : Fin NUM_CABINS).val : Nat) : Int) = some s' ∧
      (s'.cabins 3).state = CabinState.STATE_FIRE ∧
      (s'.cabins 3).light_on = false ∧
      s'.fire_active = true ∧
      handle_fire_alert s' (((3 : Fin NUM_CABINS).val : Nat) : Int) = some s' :=
  handle_fire_alert_idempotent init_state 3

/-- C9: for every cabin `i` (index in `[0, 10)`) and every integer `t`,
`adjust_temperature` returns a state in which the temperature of that cabin is
`t`; its state is TempAdjust when it was Normal and is the old state
otherwise; `light_on` is unchanged. -/
theorem adjust_temperature_effect (s : SystemState) (i : Fin NUM_CABINS) (t : Int) :
    ∃ s' : SystemState, adjust_temperature s (i.val : Int) t = some s' ∧
      (s'.cabins i).temperature = t ∧
      ((s.cabins i).state = CabinState.STATE_NORMAL →
        (s'.cabins i).state = CabinState.STATE_TEMP_ADJUST) ∧
      ((s.cabins i).state ≠ CabinState.STATE_NORMAL →
        (s'.cabins i).state = (s.cabins i).state) ∧
      (s'.cabins i).light_on = (s.cabins i).light_on := by
  unfold adjust_temperature
  rw [cabin_index_of_fin]
  refine ⟨_, rfl, ?_, ?_, ?_, ?_⟩
  · by_cases h : (s.cabins i).state = CabinState.STATE_NORMAL <;> simp [h]
  · intro h
    simp [h]
  · intro h
    simp [h]
  · by_cases h : (s.cabins i).state = CabinState.STATE_NORMAL <;> simp [h]

/-- Witness of C9: the command `TEMP 2 18` on the Normal cabin 2 of the
initial state gives temperature 18 and state TempAdjust. -/
theorem adjust_temperature_effect_witness :
    (init_state.cabins 2).state = CabinState.STATE_NORMAL ∧
    ∃ s' : SystemState, adjust_temperature init_state 2 18 = some s' ∧
      (s'.cabins 2).temperature = 18 ∧
      (s'.cabins 2).state = CabinState.STATE_TEMP_ADJUST ∧
      (s'.cabins 2).light_on = (init_state.cabins 2).light_on := by
  obtain ⟨s', h1, h2, h3, _, h5⟩ := adjust_temperature_effect init_state 2 18
  exact ⟨by decide, s', h1, h2, h3 (by decide), h5⟩

/-! ## Emergency and Fire are never left -/

/-- One iteration of the loop of `handle_power_low` changes no cabin state. -/
theorem power_low_step_state (cabins : Fin NUM_CABINS → Cabin) (i j : Fin NUM_CABINS) :
    (power_low_step cabins i j).state = (cabins j).state := by
  unfold power_low_step
  by_cases h : (cabins i).state = CabinState.STATE_NORMAL ∨
      (cabins i).state = CabinState.STATE_LIGHT_ON
  · rw [if_pos h]
    by_cases hji : j = i
    · subst hji
      simp
    · rw [Function.update_noteq hji]
  · rw [if_neg h]

/-- The loop of `handle_power_low`, over any sequence of cabins, changes no
cabin state. -/
theorem power_low_loop_state (l : List (Fin NUM_CABINS)) :
    ∀ (cabins : Fin NUM_CABINS → Cabin) (j : Fin NUM_CABINS),
      ((l.foldl power_low_step cabins) j).state = (cabins j).state := by
  induction l with
  | nil => intro cabins j; rfl
  | cons i l ih =>
    intro cabins j
    rw [List.foldl_cons, ih, power_low_step_state]

/-- A handler call whose cabin argument is a valid subscript returns. -/
theorem handler_call_returns (s : SystemState) (call : HandlerCall)
    (h : call.in_range) : ∃ s' : SystemState, call.run s = some s' := by
  cases call with
  | fire_alert c =>
    obtain ⟨i, hi⟩ := cabin_index_of_range c h.1 h.2
    subst hi
    simp [HandlerCall.run, handle_fire_alert, cabin_index_of_fin]
  | emergency c =>
    obtain ⟨i, hi⟩ := cabin_index_of_range c h.1 h.2
    subst hi
    simp [HandlerCall.run, handle_emergency, cabin_index_of_fin]
  | chain_pull => exact ⟨_, rfl⟩
  | power_low => exact ⟨_, rfl⟩
  | adjust_temp c t =>
    obtain ⟨i, hi⟩ := cabin_index_of_range c h.1 h.2
    subst hi
    simp [HandlerCall.run, adjust_temperature, cabin_index_of_fin]
  | light c b =>
    obtain ⟨i, hi⟩ := cabin_index_of_range c h.1 h.2
    subst hi
    simp [HandlerCall.run, control_light, cabin_index_of_fin]

/-- C10: for each of the six event handlers, called with any arguments, a
call with a valid cabin subscript returns, and in the state a call returns
every cabin that was in state Emergency or Fire before the call is still in
state Emergency or Fire. -/
theorem handler_keeps_alarm (s : SystemState) (call : HandlerCall) :
    (call.in_range → ∃ s' : SystemState, call.run s = some s') ∧
    ∀ s' : SystemState, call.run s = some s' →
      ∀ j : Fin NUM_CABINS, cabin_alarmed (s.cabins j) → cabin_alarmed (s'.cabins j) := by
  refine ⟨handler_call_returns s call, ?_⟩
  intro s' hrun j hj
  cases call with
  | fire_alert c =>
    simp only [HandlerCall.run, handle_fire_alert] at hrun
    cases hc : cabin_index c with
    | none =>
      rw [hc] at hrun
      exact Option.noConfusion hrun
    | some i =>
      rw [hc] at hrun
      have hs := Option.some.inj hrun
      subst hs
      by_cases hji : j = i
      · subst hji
        simp [cabin_alarmed]
      · simpa [Function.update_noteq hji] using hj
  | emergency c =>
    simp only [HandlerCall.run, handle_emergency] at hrun
    cases hc : cabin_index c with
    | none =>
      rw [hc] at hrun
      exact Option.noConfusion hrun
    | some i =>
      rw [hc] at hrun
      have hs := Option.some.inj hrun
      subst hs
      by_cases hji : j = i
      · subst hji
        simp [cabin_alarmed]
      · simpa [Function.update_noteq hji] using hj
  | chain_pull =>
    simp only [HandlerCall.run, handle_chain_pull] at hrun
    have hs := Option.some.inj hrun
    subst hs
    exact hj
  | power_low =>
    simp only [HandlerCall.run, handle_power_low] at hrun
    have hs := Option.some.inj hrun
    subst hs
    unfold cabin_alarmed at hj ⊢
    show ((List.foldl power_low_step s.cabins (List.finRange NUM_CABINS)) j).state = _ ∨
      ((List.foldl power_low_step s.cabins (List.finRange NUM_CABINS)) j).state = _
    rw [power_low_loop_state]
    exact hj
  | adjust_temp c t =>
    simp only [HandlerCall.run, adjust_temperature] at hrun
    cases hc : cabin_index c with
    | none =>
      rw [hc] at hrun
      exact Option.noConfusion hrun
    | some i =>
      rw [hc] at hrun
      have hs := Option.some.inj hrun
      subst hs
      by_cases hji : j = i
      · subst hji
        unfold cabin_alarmed at hj ⊢
        rcases hj with h | h <;> simp [h]
      · simpa [Function.update_noteq hji] using hj
  | light c b =>
    simp only [HandlerCall.run, control_light] at hrun
    cases hc : cabin_index c with
    | none =>
      rw [hc] at hrun
      exact Option.noConfusion hrun
    | some i =>
      rw [hc] at hrun
      have hs := Option.some.inj hrun
      subst hs
      by_cases hji : j = i
      · subst hji
        unfold cabin_alarmed at hj ⊢
        cases b <;> rcases hj with h | h <;> simp [h]
      · simpa [Function.update_noteq hji] using hj

/-- Witness of C10: switching the light on in cabin 3 of `mixed_cabins_state`,
which is on fire, returns a state in which cabin 3 is still alarmed. -/
theorem handler_keeps_alarm_witness :
    cabin_alarmed (mixed_cabins_state.cabins 3) ∧
    ∃ s' : SystemState,
      (HandlerCall.light 3 true).run mixed_cabins_state = some s' ∧
      cabin_alarmed (s'.cabins 3) := by
  obtain ⟨hret, hkeep⟩ := handler_keeps_alarm mixed_cabins_state (HandlerCall.light 3 true)
  obtain ⟨s', hs'⟩ := hret ⟨by decide, by decide⟩
  exact ⟨by decide, s', hs', hkeep s' hs' 3 (by decide)⟩

/-! ## States reachable from `system_init` -/

/-- A list of handler calls whose cabin arguments are all valid subscripts
runs to the end. -/
theorem run_calls_returns (calls : List HandlerCall) :
    ∀ s : SystemState, (∀ c ∈ calls, c.in_range) →
      ∃ s' : SystemState, run_calls s calls = some s' := by
  induction calls with
  | nil => intro s _; exact ⟨s, rfl⟩
  | cons call rest ih =>
    intro s h
    obtain ⟨s1, h1⟩ := handler_call_returns s call (h call (List.mem_cons_self _ _))
    obtain ⟨s2, h2⟩ := ih s1 (fun c hc => h c (List.mem_cons_of_mem _ hc))
    exact ⟨s2, by simp only [run_calls, h1, Option.some_bind, h2]⟩

/-- A property that holds before a list of calls and is kept by every call
holds after the list. -/
theorem run_calls_preserves (P : SystemState → Prop)
    (hstep : ∀ (s s' : SystemState) (call : HandlerCall),
      P s → call.run s = some s' → P s')
    (calls : List HandlerCall) :
    ∀ s s' : SystemState, P s → run_calls s calls = some s' → P s' := by
  induction calls with
  | nil =>
    intro s s' hP h
    simp only [run_calls, Option.some.injEq] at h
    rw [← h]
    exact hP
  | cons call rest ih =>
    intro s s' hP h
    simp only [run_calls, Option.bind_eq_some] at h
    obtain ⟨s1, h1, h2⟩ := h
    exact ih s1 s' (hstep s s1 call hP h1) h2

/-- The state `system_init` leaves has no alarmed cabin. -/
theorem system_init_alarm_flags (s0 : SystemState) : alarm_flags_inv (system_init s0) := by
  constructor
  · intro i h
    simp [system_init] at h
  · intro i h
    simp [system_init] at h

/-- Every handler call keeps `alarm_flags_inv`. -/
theorem alarm_flags_step (s s' : SystemState) (call : HandlerCall)
    (hinv : alarm_flags_inv s) (hrun : call.run s = some s') : alarm_flags_inv s' := by
  obtain ⟨hfire, hemer⟩ := hinv
  cases call with
  | fire_alert c =>
    simp only [HandlerCall.run, handle_fire_alert] at hrun
    cases hc : cabin_index c with
    | none =>
      rw [hc] at hrun
      exact Option.noConfusion hrun
    | some i =>
      rw [hc] at hrun
      have hs := Option.some.inj hrun
      subst hs
      refine ⟨fun _ _ => rfl, ?_⟩
      intro j hj
      by_cases hji : j = i
      · subst hji
        simp at hj
      · exact hemer j (by simpa [Function.update_noteq hji] using hj)
  | emergency c =>
    simp only [HandlerCall.run, handle_emergency] at hrun
    cases hc : cabin_index c with
    | none =>
      rw [hc] at hrun
      exact Option.noConfusion hrun
    | some i =>
      rw [hc] at hrun
      have hs := Option.some.inj hrun
      subst hs
      refine ⟨?_, fun _ _ => rfl⟩
      intro j hj
      by_cases hji : j = i
      · subst hji
        simp at hj
      · exact hfire j (by simpa [Function.update_noteq hji] using hj)
  | chain_pull =>
    simp only [HandlerCall.run, handle_chain_pull] at hrun
    have hs := Option.some.inj hrun
    subst hs
    exact ⟨hfire, fun _ _ => rfl⟩
  | power_low =>
    simp only [HandlerCall.run, handle_power_low] at hrun
    have hs := Option.some.inj hrun
    subst hs
    constructor
    · intro j hj
      have hj2 : ((List.foldl power_low_step s.cabins (List.finRange NUM_CABINS)) j).state
          = CabinState.STATE_FIRE := hj
      rw [power_low_loop_state] at hj2
      exact hfire j hj2
    · intro j hj
      have hj2 : ((List.foldl power_low_step s.cabins (List.finRange NUM_CABINS)) j).state
          = CabinState.STATE_EMERGENCY := hj
      rw [power_low_loop_state] at hj2
      exact hemer j hj2
  | adjust_temp c t =>
    simp only [HandlerCall.run, adjust_temperature] at hrun
    cases hc : cabin_index c with
    | none =>
      rw [hc] at hrun
      exact Option.noConfusion hrun
    | some i =>
      rw [hc] at hrun
      have hs := Option.some.inj hrun
      subst hs
      constructor
      · intro j hj
        by_cases hji : j = i
        · subst hji
          by_cases hn : (s.cabins j).state = CabinState.STATE_NORMAL
          · simp [hn] at hj
          · exact hfire j (by simpa [hn] using hj)
        · exact hfire j (by simpa [Function.update_noteq hji] using hj)
      · intro j hj
        by_cases hji : j = i
        · subst hji
          by_cases hn : (s.cabins j).state = CabinState.STATE_NORMAL
          · simp [hn] at hj
          · exact hemer j (by simpa [hn] using hj)
        · exact hemer j (by simpa [Function.update_noteq hji] using hj)
  | light c b =>
    simp only [HandlerCall.run, control_light] at hrun
    cases hc : cabin_index c with
    | none =>
      rw [hc] at hrun
      exact Option.noConfusion hrun
    | some i =>
      rw [hc] at hrun
      have hs := Option.some.inj hrun
      subst hs
      constructor
      · intro j hj
        by_cases hji : j = i
        · subst hji
          apply hfire j
          cases b <;> cases hst : (s.cabins j).state <;> simp [hst] at hj ⊢
        · exact hfire j (by simpa [Function.update_noteq hji] using hj)
      · intro j hj
        by_cases hji : j = i
        · subst hji
          apply hemer j
          cases b <;> cases hst : (s.cabins j).state <;> simp [hst] at hj ⊢
        · exact hemer j (by simpa [Function.update_noteq hji] using hj)

/-- C16: in every state reached from the state `system_init` leaves by a
sequence of calls of the six event handlers, a cabin in state Fire implies
`fire_active` and a cabin in state Emergency implies `emergency_active`; a
sequence whose cabin arguments are all in `[0, 10)` does reach a state. -/
theorem reachable_alarm_flags (s0 : SystemState) (calls : List HandlerCall) :
    ((∀ c ∈ calls, c.in_range) →
      ∃ s : SystemState, run_calls (system_init s0) calls = some s) ∧
    ∀ s : SystemState, run_calls (system_init s0) calls = some s →
      ((∃ i : Fin NUM_CABINS, (s.cabins i).state = CabinState.STATE_FIRE) →
        s.fire_active = true) ∧
      ((∃ i : Fin NUM_CABINS, (s.cabins i).state = CabinState.STATE_EMERGENCY) →
        s.emergency_active = true) := by
  refine ⟨run_calls_returns calls (system_init s0), ?_⟩
  intro s hs
  have hinv : alarm_flags_inv s :=
    run_calls_preserves alarm_flags_inv alarm_flags_step calls (system_init s0) s
      (system_init_alarm_flags s0) hs
  exact ⟨fun ⟨i, hi⟩ => hinv.1 i hi, fun ⟨i, hi⟩ => hinv.2 i hi⟩

/-- Witness of C16: after `sample_calls` cabin 3 is on fire and cabin 4 in
emergency, and both flags are set. -/
theorem reachable_alarm_flags_witness :
    ∃ s : SystemState, run_calls (system_init zero_state) sample_calls = some s ∧
      (s.cabins 3).state = CabinState.STATE_FIRE ∧
      (s.cabins 4).state = CabinState.STATE_EMERGENCY ∧
      s.fire_active = true ∧ s.emergency_active = true := by
  obtain ⟨hret, hinv⟩ := reachable_alarm_flags zero_state sample_calls
  obtain ⟨s, hs⟩ := hret (by decide)
  have hcab : (run_calls (system_init zero_state) sample_calls).map
      (fun s => ((s.cabins 3).state, (s.cabins 4).state))
      = some (CabinState.STATE_FIRE, CabinState.STATE_EMERGENCY) := by decide
  rw [hs] at hcab
  simp only [Option.map_some', Option.some.injEq, Prod.mk.injEq] at hcab
  exact ⟨s, hs, hcab.1, hcab.2, (hinv s hs).1 ⟨3, hcab.1⟩, (hinv s hs).2 ⟨4, hcab.2⟩⟩

/-- One iteration of the loop of `handle_power_low` leaves the light of a
cabin as it was or switches it off. -/
theorem power_low_step_light (cabins : Fin NUM_CABINS → Cabin) (i j : Fin NUM_CABINS) :
    (power_low_step cabins i j).light_on = (cabins j).light_on ∨
    (power_low_step cabins i j).light_on = false := by
  unfold power_low_step
  by_cases h : (cabins i).state = CabinState.STATE_NORMAL ∨
      (cabins i).state = CabinState.STATE_LIGHT_ON
  · rw [if_pos h]
    by_cases hji : j = i
    · subst hji
      right
      simp
    · left
      rw [Function.update_noteq hji]
  · rw [if_neg h]
    left
    rfl

/-- The loop of `handle_power_low` leaves each light as it was or switches it
off. -/
theorem power_low_loop_light (l : List (Fin NUM_CABINS)) :
    ∀ (cabins : Fin NUM_CABINS → Cabin) (j : Fin NUM_CABINS),
      ((l.foldl power_low_step cabins) j).light_on = (cabins j).light_on ∨
      ((l.foldl power_low_step cabins) j).light_on = false := by
  induction l with
  | nil => intro cabins j; left; rfl
  | cons i l ih =>
    intro cabins j
    rw [List.foldl_cons]
    rcases ih (power_low_step cabins i) j with h | h
    · rcases power_low_step_light cabins i j with h2 | h2
      · left
        rw [h, h2]
      · right
        rw [h, h2]
    · right
      exact h

/-- The state `system_init` leaves has every light off. -/
theorem system_init_normal_dark (s0 : SystemState) : normal_dark_inv (system_init s0) := by
  intro i _
  simp [system_init]

/-- Every handler call keeps `normal_dark_inv`. -/
theorem normal_dark_step (s s' : SystemState) (call : HandlerCall)
    (hinv : normal_dark_inv s) (hrun : call.run s = some s') : normal_dark_inv s' := by
  cases call with
  | fire_alert c =>
    simp only [HandlerCall.run, handle_fire_alert] at hrun
    cases hc : cabin_index c with
    | none =>
      rw [hc] at hrun
      exact Option.noConfusion hrun
    | some i =>
      rw [hc] at hrun
      have hs := Option.some.inj hrun
      subst hs
      intro j hj
      by_cases hji : j = i
      · subst hji
        simp
      · have hj2 : (s.cabins j).state = CabinState.STATE_NORMAL := by
          simpa [Function.update_noteq hji] using hj
        simpa [Function.update_noteq hji] using hinv j hj2
  | emergency c =>
    simp only [HandlerCall.run, handle_emergency] at hrun
    cases hc : cabin_index c with
    | none =>
      rw [hc] at hrun
      exact Option.noConfusion hrun
    | some i =>
      rw [hc] at hrun
      have hs := Option.some.inj hrun
      subst hs
      intro j hj
      by_cases hji : j = i
      · subst hji
        simp at hj
      · have hj2 : (s.cabins j).state = CabinState.STATE_NORMAL := by
          simpa [Function.update_noteq hji] using hj
        simpa [Function.update_noteq hji] using hinv j hj2
  | chain_pull =>
    simp only [HandlerCall.run, handle_chain_pull] at hrun
    have hs := Option.some.inj hrun
    subst hs
    exact hinv
  | power_low =>
    simp only [HandlerCall.run, handle_power_low] at hrun
    have hs := Option.some.inj hrun
    subst hs
    intro j hj
    have hj2 : ((List.foldl power_low_step s.cabins (List.finRange NUM_CABINS)) j).state
        = CabinState.STATE_NORMAL := hj
    rw [power_low_loop_state] at hj2
    show ((List.foldl power_low_step s.cabins (List.finRange NUM_CABINS)) j).light_on = false
    rcases power_low_loop_light (List.finRange NUM_CABINS) s.cabins j with h | h
    · rw [h]
      exact hinv j hj2
    · exact h
  | adjust_temp c t =>
    simp only [HandlerCall.run, adjust_temperature] at hrun
    cases hc : cabin_index c with
    | none =>
      rw [hc] at hrun
      exact Option.noConfusion hrun
    | some i =>
      rw [hc] at hrun
      have hs := Option.some.inj hrun
      subst hs
      intro j hj
      by_cases hji : j = i
      · subst hji
        by_cases hn : (s.cabins j).state = CabinState.STATE_NORMAL
        · simp [hn] at hj
        · simp [hn] at hj
      · have hj2 : (s.cabins j).state = CabinState.STATE_NORMAL := by
          simpa [Function.update_noteq hji] using hj
        simpa [Function.update_noteq hji] using hinv j hj2
  | light c b =>
    simp only [HandlerCall.run, control_light] at hrun
    cases hc : cabin_index c with
    | none =>
      rw [hc] at hrun
      exact Option.noConfusion hrun
    | some i =>
      rw [hc] at hrun
      have hs := Option.some.inj hrun
      subst hs
      intro j hj
      by_cases hji : j = i
      · subst hji
        cases b <;> cases hst : (s.cabins j).state <;> simp [hst] at hj ⊢
      · have hj2 : (s.cabins j).state = CabinState.STATE_NORMAL := by
          simpa [Function.update_noteq hji] using hj
        simpa [Function.update_noteq hji] using hinv j hj2

/-- C17: in every state reached from the state `system_init` leaves by a
sequence of calls of the six event handlers, every cabin whose state is Normal
has `light_on = false`; a sequence whose cabin arguments are all in `[0, 10)`
does reach a state. -/
theorem reachable_normal_dark (s0 : SystemState) (calls : List HandlerCall) :
    ((∀ c ∈ calls, c.in_range) →
      ∃ s : SystemState, run_calls (system_init s0) calls = some s) ∧
    ∀ s : SystemState, run_calls (system_init s0) calls = some s →
      ∀ i : Fin NUM_CABINS, (s.cabins i).state = CabinState.STATE_NORMAL →
        (s.cabins i).light_on = false := by
  refine ⟨run_calls_returns calls (system_init s0), ?_⟩
  intro s hs
  exact run_calls_preserves normal_dark_inv normal_dark_step calls (system_init s0) s
    (system_init_normal_dark s0) hs

/-- Witness of C17: after `sample_calls` cabin 1, switched on and off again,
is Normal with its light off. -/
theorem reachable_normal_dark_witness :
    ∃ s : SystemState, run_calls (system_init zero_state) sample_calls = some s ∧
      (s.cabins 1).state = CabinState.STATE_NORMAL ∧
      (s.cabins 1).light_on = false := by
  obtain ⟨hret, hinv⟩ := reachable_normal_dark zero_state sample_calls
  obtain ⟨s, hs⟩ := hret (by decide)
  have hcab : (run_calls (system_init zero_state) sample_calls).map
      (fun s => (s.cabins 1).state) = some CabinState.STATE_NORMAL := by decide
  rw [hs] at hcab
  simp only [Option.map_some', Option.some.injEq] at hcab
  exact ⟨s, hs, hcab, hinv s hs 1 hcab⟩

/-! ## Command listener -/

/-- C11, evaluated on the code: the line `CHAIN`, a single token, makes
`sscanf` assign one string, so the test `n >= 2` fails and no handler is
called: the state is returned as it was, and on the initial state
`emergency_active` is still false afterwards.  Only with a second token (here
`CHAIN now`) is `handle_chain_pull` reached. -/
theorem chain_alone_is_dropped (s : SystemState) (param2_init : String) :
    usb_listener_thread_step s "CHAIN" param2_init = some s ∧
    (usb_listener_thread_step init_state "CHAIN" param2_init).map
      (fun st => st.emergency_active) = some false ∧
    usb_listener_thread_step s "CHAIN now" param2_init = some (handle_chain_pull s) :=
  ⟨rfl, rfl, rfl⟩

/-- A cabin token that `atoi` reads as a number outside `[0, 10)` makes the
commands LIGHT, TEMP, EMERGENCY and FIRE leave the state as it is. -/
theorem usb_dispatch_out_of_range (s : SystemState) (cmd param1 param2 : List Char)
    (n : Nat) (k t : Int)
    (hcmd : cmd = "LIGHT".data ∨ cmd = "TEMP".data ∨ cmd = "EMERGENCY".data ∨
      cmd = "FIRE".data)
    (hk : atoi param1 = some k) (ht : atoi param2 = some t) (hr : k < 0 ∨ 10 ≤ k) :
    usb_dispatch s cmd param1 param2 n = some s := by
  have hno : ¬ (k ≥ 0 ∧ k < 10) := by omega
  rcases hcmd with h | h | h | h
  · subst h
    unfold usb_dispatch
    rw [if_pos rfl, hk]
    simp only [if_neg hno]
  · subst h
    unfold usb_dispatch
    rw [if_neg (by decide), if_pos rfl, hk, ht]
    simp only [if_neg hno]
  · subst h
    unfold usb_dispatch
    rw [if_neg (by decide), if_neg (by decide), if_pos rfl, hk]
    simp only [if_neg hno]
  · subst h
    unfold usb_dispatch
    rw [if_neg (by decide), if_neg (by decide), if_neg (by decide), if_pos rfl, hk]
    simp only [if_neg hno]

/-- C12, evaluated on the code: a cabin token that is not a number (`abc`) is
read by `atoi` as 0, which passes the range test, so the four commands act on
cabin 0; on the initial state `FIRE abc` puts cabin 0 in state Fire and sets
`fire_active`. -/
theorem non_number_cabin_hits_cabin_zero (s : SystemState) (param2_init : String) :
    usb_listener_thread_step s "FIRE abc" param2_init = handle_fire_alert s 0 ∧
    usb_listener_thread_step s "EMERGENCY abc" param2_init = handle_emergency s 0 ∧
    usb_listener_thread_step s "LIGHT abc ON" param2_init = control_light s 0 true ∧
    usb_listener_thread_step s "TEMP abc 30" param2_init = adjust_temperature s 0 30 ∧
    (init_state.cabins 0).state = CabinState.STATE_NORMAL ∧
    init_state.fire_active = false ∧
    (usb_listener_thread_step init_state "FIRE abc" param2_init).map
      (fun st => ((st.cabins 0).state, st.fire_active))
      = some (CabinState.STATE_FIRE, true) :=
  ⟨rfl, rfl, rfl, rfl, rfl, rfl, rfl⟩

/-- With two tokens the command TEMP passes the content that `param2` had
before `sscanf` to `atoi` and calls `adjust_temperature` with the result. -/
theorem temp_two_tokens (s : SystemState) (param2_init : String) :
    usb_listener_thread_step s "TEMP 2" param2_init =
      (atoi param2_init.data).bind (fun temp => adjust_temperature s 2 temp) := by
  have h : usb_listener_thread_step s "TEMP 2" param2_init
      = usb_dispatch s "TEMP".data "2".data param2_init.data 2 := rfl
  rw [h]
  unfold usb_dispatch
  rw [if_neg (by decide), if_pos rfl]
  have h2 : atoi "2".data = some 2 := by decide
  rw [h2]
  cases atoi param2_init.data with
  | none => rfl
  | some temp => rfl

/-- C13, evaluated on the code: the line `TEMP 2`, a valid cabin and no
temperature token, passes the test `n >= 2`; `adjust_temperature` is called
with whatever `atoi` reads in the unassigned `param2`.  On the initial state
every result has cabin 2 moved from Normal to TempAdjust, and with `77` left
in `param2` the temperature of cabin 2 goes from 24 to 77. -/
theorem temp_without_value_adjusts (param2_init : String) :
    (init_state.cabins 2).state = CabinState.STATE_NORMAL ∧
    (init_state.cabins 2).temperature = 24 ∧
    (∀ st : SystemState,
      usb_listener_thread_step init_state "TEMP 2" param2_init = some st →
      (st.cabins 2).state = CabinState.STATE_TEMP_ADJUST) ∧
    (usb_listener_thread_step init_state "TEMP 2" "77").map
      (fun st => ((st.cabins 2).state, (st.cabins 2).temperature))
      = some (CabinState.STATE_TEMP_ADJUST, 77) := by
  refine ⟨rfl, rfl, ?_, rfl⟩
  intro st hst
  rw [temp_two_tokens] at hst
  cases hp : atoi param2_init.data with
  | none =>
    rw [hp] at hst
    exact Option.noConfusion hst
  | some temp =>
    rw [hp] at hst
    have hst2 : adjust_temperature init_state 2 temp = some st := hst
    have hev : (adjust_temperature init_state 2 temp).map (fun st => (st.cabins 2).state)
        = some CabinState.STATE_TEMP_ADJUST := rfl
    rw [hst2] at hev
    exact Option.some.inj hev

/-! ## Periodic runners -/

/-- The position of a task, as a C `int`, is a valid subscript and denotes
that task. -/
theorem task_index_of_fin (i : Fin MAX_TASKS) : task_index (i.val : Int) = some i := by
  have hi : i.val < 8 := i.isLt
  have h : 0 ≤ (i.val : Int) ∧ (i.val : Int) < 8 := by omega
  unfold task_index
  rw [dif_pos h]
  congr 1

/-- For a registered task that holds its own position in `id`,
`scheduler_task_complete(self->id)` updates that task. -/
theorem task_complete_self (s : SystemState) (self : Fin MAX_TASKS) (now : Nat)
    (hid : (s.tasks self).id = (self.val : Int)) (hreg : self.val < s.num_tasks) :
    scheduler_task_complete s (s.tasks self).id now =
      some (task_completed s self now) := by
  have hr : 0 ≤ (self.val : Int) ∧ (self.val : Int) < (s.num_tasks : Int) := by omega
  rw [hid]
  unfold scheduler_task_complete
  rw [if_pos hr, task_index_of_fin]
  rfl

/-- C15 as stated fails on the code: for the chain-pull runner (task 2 of the
registered table) the state of the task is never Running during a pass, and
for the power runner in low power mode (task 3) the pass does not end in
Ready, although the loop condition holds in both states. -/
theorem periodic_cycle_fails :
    runner_loop_condition registered_state 2 ∧
    ¬ ready_running_ready PeriodicRunner.chain_pull 2 0 registered_state ∧
    runner_loop_condition low_power_state 3 ∧
    ¬ ready_running_ready PeriodicRunner.power 3 0 low_power_state := by
  decide

/-- The task that `set_task_state` writes. -/
theorem set_task_state_self (s : SystemState) (self : Fin MAX_TASKS) (st : TaskState) :
    (set_task_state s self st).tasks self = { s.tasks self with state := st } := by
  simp [set_task_state]

/-- The task that `task_completed` writes. -/
theorem task_completed_self (s : SystemState) (self : Fin MAX_TASKS) (now : Nat) :
    (task_completed s self now).tasks self =
      { s.tasks self with
        execution_count := (s.tasks self).execution_count + 1
        last_execution := now } := by
  simp [task_completed]

/-- C15, amended: for each of the six periodic runners, in every state in
which the loop condition holds and the runner's task is registered with its
position as `id`, one pass of the loop runs through and leaves
`execution_count` of the task exactly one higher.  The temperature, lighting,
display and logging runners set the state to Running during the pass and
leave it Ready at the end.  The chain-pull runner has the state Ready after
every statement.  The power runner has the state Running after every
statement when `power_low` is set, and Ready after every statement when it is
not. -/
theorem periodic_iteration_effect (r : PeriodicRunner) (s : SystemState)
    (self : Fin MAX_TASKS) (now : Nat)
    (_hloop : runner_loop_condition s self)
    (hid : (s.tasks self).id = (self.val : Int)) (hreg : self.val < s.num_tasks) :
    ∃ (trace : List SystemState) (last : SystemState),
      r.iteration self now s = some trace ∧ trace.getLast? = some last ∧
      (last.tasks self).execution_count = (s.tasks self).execution_count + 1 ∧
      ((r = PeriodicRunner.temperature ∨ r = PeriodicRunner.lighting ∨
        r = PeriodicRunner.display ∨ r = PeriodicRunner.logging) →
        (∃ st ∈ trace, (st.tasks self).state = TaskState.TASK_RUNNING) ∧
        (last.tasks self).state = TaskState.TASK_READY) ∧
      (r = PeriodicRunner.chain_pull →
        ∀ st ∈ trace, (st.tasks self).state = TaskState.TASK_READY) ∧
      (r = PeriodicRunner.power →
        (s.power_low = true →
          ∀ st ∈ trace, (st.tasks self).state = TaskState.TASK_RUNNING) ∧
        (s.power_low = false →
          ∀ st ∈ trace, (st.tasks self).state = TaskState.TASK_READY)) := by
  have hset : ∀ st : TaskState,
      ((set_task_state s self st).tasks self).id = (self.val : Int) ∧
      self.val < (set_task_state s self st).num_tasks := by
    intro st
    refine ⟨?_, hreg⟩
    rw [set_task_state_self]
    exact hid
  cases r with
  | chain_pull =>
    have hc := task_complete_self (set_task_state s self TaskState.TASK_READY) self now
      (hset _).1 (hset _).2
    refine ⟨[set_task_state s self TaskState.TASK_READY,
        set_task_state s self TaskState.TASK_READY,
        task_completed (set_task_state s self TaskState.TASK_READY) self now],
      task_completed (set_task_state s self TaskState.TASK_READY) self now,
      ?_, rfl, ?_, ?_, ?_, ?_⟩
    · simp [PeriodicRunner.iteration, PeriodicRunner.body, run_ops, RunnerOp.exec, hc]
    · simp [task_completed_self, set_task_state_self]
    · intro h
      simp at h
    · intro _ st hst
      simp only [List.mem_cons, List.mem_singleton, List.not_mem_nil, or_false] at hst
      rcases hst with h | h | h <;> subst h <;>
        simp [task_completed_self, set_task_state_self]
    · intro h
      exact PeriodicRunner.noConfusion h
  | power =>
    by_cases hp : s.power_low = true
    · have hc := task_complete_self (set_task_state s self TaskState.TASK_RUNNING) self now
        (by simp [set_task_state_self, hid]) hreg
      refine ⟨[(set_task_state s self TaskState.TASK_RUNNING),
          (task_completed (set_task_state s self TaskState.TASK_RUNNING) self now),
          (task_completed (set_task_state s self TaskState.TASK_RUNNING) self now)],
        (task_completed (set_task_state s self TaskState.TASK_RUNNING) self now),
        ?_, rfl, ?_, ?_, ?_, ?_⟩
      · simp [PeriodicRunner.iteration, PeriodicRunner.body, run_ops, RunnerOp.exec, hc, hp]
      · simp [task_completed_self, set_task_state_self]
      · intro h
        simp at h
      · intro h
        exact PeriodicRunner.noConfusion h
      · intro _
        refine ⟨?_, fun hf => absurd hp (by simp [hf])⟩
        intro _ st hst
        simp only [List.mem_cons, List.mem_singleton, List.not_mem_nil, or_false] at hst
        rcases hst with h | h | h <;> subst h <;>
          simp [task_completed_self, set_task_state_self]
    · have hc := task_complete_self (set_task_state s self TaskState.TASK_READY) self now
        (by simp [set_task_state_self, hid]) hreg
      refine ⟨[(set_task_state s self TaskState.TASK_READY),
          (set_task_state s self TaskState.TASK_READY),
          (task_completed (set_task_state s self TaskState.TASK_READY) self now)],
        (task_completed (set_task_state s self TaskState.TASK_READY) self now),
        ?_, rfl, ?_, ?_, ?_, ?_⟩
      · simp [PeriodicRunner.iteration, PeriodicRunner.body, run_ops, RunnerOp.exec, hc, hp]
      · simp [task_completed_self, set_task_state_self]
      · intro h
        simp at h
      · intro h
        exact PeriodicRunner.noConfusion h
      · intro _
        refine ⟨fun ht => absurd ht hp, ?_⟩
        intro _ st hst
        simp only [List.mem_cons, List.mem_singleton, List.not_mem_nil, or_false] at hst
        rcases hst with h | h | h <;> subst h <;>
          simp [task_completed_self, set_task_state_self]
  | temperature =>
    have hc := task_complete_self (set_task_state (set_task_state s self TaskState.TASK_RUNNING) self TaskState.TASK_READY) self now
      (by simp [set_task_state_self, hid]) hreg
    refine ⟨[(set_task_state s self TaskState.TASK_RUNNING),
        (set_task_state s self TaskState.TASK_RUNNING),
        (set_task_state (set_task_state s self TaskState.TASK_RUNNING) self TaskState.TASK_READY),
        (set_task_state (set_task_state s self TaskState.TASK_RUNNING) self TaskState.TASK_READY),
        (task_completed (set_task_state (set_task_state s self TaskState.TASK_RUNNING) self TaskState.TASK_READY) self now)],
      (task_completed (set_task_state (set_task_state s self TaskState.TASK_RUNNING) self TaskState.TASK_READY) self now),
      ?_, rfl, ?_, ?_, ?_, ?_⟩
    · simp [PeriodicRunner.iteration, PeriodicRunner.body, run_ops, RunnerOp.exec, hc]
    · simp [task_completed_self, set_task_state_self]
    · intro _
      refine ⟨⟨(set_task_state s self TaskState.TASK_RUNNING), by simp, by simp [set_task_state_self]⟩, ?_⟩
      simp [task_completed_self, set_task_state_self]
    · intro h
      exact PeriodicRunner.noConfusion h
    · intro h
      exact PeriodicRunner.noConfusion h
  | lighting =>
    have hc := task_complete_self (set_task_state s self TaskState.TASK_RUNNING) self now
      (by simp [set_task_state_self, hid]) hreg
    refine ⟨[(set_task_state s self TaskState.TASK_RUNNING),
        (task_completed (set_task_state s self TaskState.TASK_RUNNING) self now),
        (set_task_state (task_completed (set_task_state s self TaskState.TASK_RUNNING) self now) self TaskState.TASK_READY),
        (set_task_state (task_completed (set_task_state s self TaskState.TASK_RUNNING) self now) self TaskState.TASK_READY)],
      (set_task_state (task_completed (set_task_state s self TaskState.TASK_RUNNING) self now) self TaskState.TASK_READY),
      ?_, rfl, ?_, ?_, ?_, ?_⟩
    · simp [PeriodicRunner.iteration, PeriodicRunner.body, run_ops, RunnerOp.exec, hc]
    · simp [task_completed_self, set_task_state_self]
    · intro _
      refine ⟨⟨(set_task_state s self TaskState.TASK_RUNNING), by simp, by simp [set_task_state_self]⟩, ?_⟩
      simp [task_completed_self, set_task_state_self]
    · intro h
      exact PeriodicRunner.noConfusion h
    · intro h
      exact PeriodicRunner.noConfusion h
  | display =>
    have hc := task_complete_self (set_task_state s self TaskState.TASK_RUNNING) self now
      (by simp [set_task_state_self, hid]) hreg
    refine ⟨[(set_task_state s self TaskState.TASK_RUNNING),
        (set_task_state s self TaskState.TASK_RUNNING),
        (task_completed (set_task_state s self TaskState.TASK_RUNNING) self now),
        (set_task_state (task_completed (set_task_state s self TaskState.TASK_RUNNING) self now) self TaskState.TASK_READY),
        (set_task_state (task_completed (set_task_state s self TaskState.TASK_RUNNING) self now) self TaskState.TASK_READY)],
      (set_task_state (task_completed (set_task_state s self TaskState.TASK_RUNNING) self now) self TaskState.TASK_READY),
      ?_, rfl, ?_, ?_, ?_, ?_⟩
    · simp [PeriodicRunner.iteration, PeriodicRunner.body, run_ops, RunnerOp.exec, hc]
    · simp [task_completed_self, set_task_state_self]
    · intro _
      refine ⟨⟨(set_task_state s self TaskState.TASK_RUNNING), by simp, by simp [set_task_state_self]⟩, ?_⟩
      simp [task_completed_self, set_task_state_self]
    · intro h
      exact PeriodicRunner.noConfusion h
    · intro h
      exact PeriodicRunner.noConfusion h
  | logging =>
    have hc := task_complete_self (set_task_state s self TaskState.TASK_RUNNING) self now
      (by simp [set_task_state_self, hid]) hreg
    refine ⟨[(set_task_state s self TaskState.TASK_RUNNING),
        (task_completed (set_task_state s self TaskState.TASK_RUNNING) self now),
        (set_task_state (task_completed (set_task_state s self TaskState.TASK_RUNNING) self now) self TaskState.TASK_READY),
        (set_task_state (task_completed (set_task_state s self TaskState.TASK_RUNNING) self now) self TaskState.TASK_READY)],
      (set_task_state (task_completed (set_task_state s self TaskState.TASK_RUNNING) self now) self TaskState.TASK_READY),
      ?_, rfl, ?_, ?_, ?_, ?_⟩
    · simp [PeriodicRunner.iteration, PeriodicRunner.body, run_ops, RunnerOp.exec, hc]
    · simp [task_completed_self, set_task_state_self]
    · intro _
      refine ⟨⟨(set_task_state s self TaskState.TASK_RUNNING), by simp, by simp [set_task_state_self]⟩, ?_⟩
      simp [task_completed_self, set_task_state_self]
    · intro h
      exact PeriodicRunner.noConfusion h
    · intro h
      exact PeriodicRunner.noConfusion h

/-- Witness of C15 as amended: one pass of the lighting runner (task 5 of the
registered table). -/
theorem periodic_iteration_effect_witness :
    runner_loop_condition registered_state 5 ∧
    (registered_state.tasks 5).id = (((5 : Fin MAX_TASKS).val : Nat) : Int) ∧
    (5 : Fin MAX_TASKS).val < registered_state.num_tasks ∧
    ∃ (trace : List SystemState) (last : SystemState),
      PeriodicRunner.lighting.iteration 5 0 registered_state = some trace ∧
      trace.getLast? = some last ∧
      (last.tasks 5).execution_count = (registered_state.tasks 5).execution_count + 1 ∧
      (∃ st ∈ trace, (st.tasks 5).state = TaskState.TASK_RUNNING) ∧
      (last.tasks 5).state = TaskState.TASK_READY := by
  obtain ⟨trace, last, h1, h2, h3, h4, _, _⟩ :=
    periodic_iteration_effect PeriodicRunner.lighting registered_state 5 0
      (by decide) (by decide) (by decide)
  obtain ⟨h5, h6⟩ := h4 (Or.inr (Or.inl rfl))
  exact ⟨by decide, by decide, by decide, trace, last, h1, h2, h3, h5, h6⟩

/-! ## Shutdown against an event-driven runner -/

/-- With the runner blocked in `pthread_cond_wait` and the shutdown path in
`pthread_join`, neither thread can take a step, so no interleaving
continues. -/
theorem waiting_join_is_stuck (kind : EventRunner) (self : Fin MAX_TASKS) (now : Nat)
    (st : ShutdownState) (hr : st.runner = RunnerPc.waiting)
    (hm : st.main = MainPc.stop_join) :
    ∀ (who : ThreadId) (rest : List ThreadId),
      run_schedule kind self now st (who :: rest) = none := by
  intro who rest
  have hstep : thread_step kind self now st who = none := by
    cases who with
    | runner =>
      simp only [thread_step, runner_step, hr]
    | main =>
      simp only [thread_step, main_step, hm, hr]
      rfl
  simp only [run_schedule, hstep, Option.none_bind]

/-- The model lets shutdown complete when the runner is already blocked in
`pthread_cond_wait` at the broadcast: after `waiting_first_schedule` the
runner has returned and `scheduler_stop` has returned. -/
theorem shutdown_completes_when_waiting :
    (run_schedule EventRunner.fire 0 0 shutdown_start waiting_first_schedule).map
      (fun st => (st.runner, st.main)) = some (RunnerPc.returned, MainPc.stopped) := by
  decide

/-- C14, evaluated on the code: with the alarm flags false, the interleaving
`lost_wakeup_schedule` (the runner passes its loop test; shutdown clears
`system_running`, marks the tasks inactive under the mutex, unlocks and
broadcasts while nobody waits; the runner then locks, finds its flag false
and calls `pthread_cond_wait`) ends with the runner blocked in
`pthread_cond_wait` and `scheduler_stop` blocked in `pthread_join`, for the
fire runner and for the passenger emergency runner alike; from there no
thread can take a step. -/
theorem shutdown_lost_wakeup_deadlock :
    registered_state.fire_active = false ∧
    registered_state.emergency_active = false ∧
    (∃ st : ShutdownState,
      run_schedule EventRunner.fire 0 0 shutdown_start lost_wakeup_schedule = some st ∧
      st.runner = RunnerPc.waiting ∧ st.main = MainPc.stop_join ∧
      ∀ (who : ThreadId) (rest : List ThreadId),
        run_schedule EventRunner.fire 0 0 st (who :: rest) = none) ∧
    (∃ st : ShutdownState,
      run_schedule EventRunner.passenger 1 0 shutdown_start lost_wakeup_schedule
        = some st ∧
      st.runner = RunnerPc.waiting ∧ st.main = MainPc.stop_join ∧
      ∀ (who : ThreadId) (rest : List ThreadId),
        run_schedule EventRunner.passenger 1 0 st (who :: rest) = none) := by
  refine ⟨by decide, by decide, ?_, ?_⟩
  · have hev : (run_schedule EventRunner.fire 0 0 shutdown_start
        lost_wakeup_schedule).map (fun st => (st.runner, st.main))
        = some (RunnerPc.waiting, MainPc.stop_join) := by decide
    cases h : run_schedule EventRunner.fire 0 0 shutdown_start lost_wakeup_schedule with
    | none =>
      rw [h] at hev
      exact Option.noConfusion hev
    | some st =>
      rw [h] at hev
      simp only [Option.map_some', Option.some.injEq, Prod.mk.injEq] at hev
      exact ⟨st, rfl, hev.1, hev.2,
        waiting_join_is_stuck EventRunner.fire 0 0 st hev.1 hev.2⟩
  · have hev : (run_schedule EventRunner.passenger 1 0 shutdown_start
        lost_wakeup_schedule).map (fun st => (st.runner, st.main))
        = some (RunnerPc.waiting, MainPc.stop_join) := by decide
    cases h : run_schedule EventRunner.passenger 1 0 shutdown_start
        lost_wakeup_schedule with
    | none =>
      rw [h] at hev
      exact Option.noConfusion hev
    | some st =>
      rw [h] at hev
      simp only [Option.map_some', Option.some.injEq, Prod.mk.injEq] at hev
      exact ⟨st, rfl, hev.1, hev.2,
        waiting_join_is_stuck EventRunner.passenger 1 0 st hev.1 hev.2⟩

end CoachRtos
